import Mathlib

/-!
# p2p-fileshare: session registry and signaling router

A shallow embedding of `internal/models/session.go`, `internal/session/store.go`
and `internal/handlers/signaling.go`.

Conventions of the embedding:

* a `*websocket.Conn` is an `Option Nat`: `none` is the nil pointer, `some c`
  the connection with identity `c`;
* the Go map `map[string]*models.Session` is an association list; the order
  of the list stands for the order in which `range` enumerates the map, which
  Go leaves unspecified, so statements are made for every order;
* `time.Time` is an integer instant in nanoseconds and `time.Duration` an
  `int64` number of nanoseconds carried in an `Int`;
* the results of `rand.Int`, `time.Now`, `json.Unmarshal` and `json.Marshal`
  are inputs of the functions that call them;
* sending on a connection is recorded as an output list of
  `(connection, envelope)` pairs, in the order of the calls of `WriteJSON`.
-/

namespace P2P

/-! ## internal/models/session.go -/

/-- FileMetadata contains information about the file being shared. -/
structure FileMetadata where
  Name : String
  Size : Int
  Type_ : String
  deriving DecidableEq, Repr

/-- Session represents an active file sharing session. -/
structure Session where
  Code : String
  SenderConn : Option Nat
  ReceiverConn : Option Nat
  FileMetadata : FileMetadata
  CreatedAt : Int
  deriving DecidableEq, Repr

/-- SignalMessage is the envelope of all WebSocket communication.
`Payload` is a `json.RawMessage`: `none` is the nil slice. -/
structure SignalMessage where
  Type_ : String
  Code : String
  Payload : Option String
  Error : String
  deriving DecidableEq, Repr

def TypeCreate : String := "create"
def TypeCreated : String := "created"
def TypeJoin : String := "join"
def TypeJoined : String := "joined"
def TypeReceiverJoined : String := "receiver-joined"
def TypeAccept : String := "accept"
def TypeOffer : String := "offer"
def TypeAnswer : String := "answer"
def TypeIceCandidate : String := "ice-candidate"
def TypeError : String := "error"
def TypeClose : String := "close"

/-- Helper to create an error message. -/
def NewErrorMessage (code : String) (errMsg : String) : SignalMessage :=
  { Type_ := TypeError, Code := code, Payload := none, Error := errMsg }

/-! ## internal/session/store.go -/

/-- Store manages all active sharing sessions. -/
structure Store where
  sessions : List (String × Session)
  deriving DecidableEq, Repr

/-- The value of `s.sessions[code]` as a map read. -/
def mapGet (m : List (String × Session)) (code : String) : Option Session :=
  m.lookup code

/-- The effect of `delete(m, code)`. -/
def mapDelete (m : List (String × Session)) (code : String) : List (String × Session) :=
  m.filter (fun e => !(e.1 == code))

/-- The effect of `m[code] = session`. -/
def mapSet (m : List (String × Session)) (code : String) (session : Session) :
    List (String × Session) :=
  (code, session) :: mapDelete m code

/-- NewStore creates a new session store. -/
def NewStore : Store := { sessions := [] }

/-- Decimal digits of a natural number, least significant first; `fuel`
bounds the number of digits produced. -/
def digitsRev : Nat → Nat → List Nat
  | 0, _ => []
  | fuel + 1, v => if v < 10 then [v] else (v % 10) :: digitsRev fuel (v / 10)

/-- The character of a decimal digit. -/
def digitChar (d : Nat) : Char := Char.ofNat (48 + d)

/-- The verb `%06d` of `fmt.Sprintf` on a non-negative integer: decimal
digits, left-padded with zeros to width six. -/
def sprintf06d (v : Nat) : String :=
  let ds := ((digitsRev (v + 1) v).reverse).map digitChar
  String.mk (List.replicate (6 - ds.length) '0' ++ ds)

/-- The function generateCode creates a random 6-digit code; `r` is the result
of `rand.Int(rand.Reader, 900000)`. -/
def generateCode (r : Except String Nat) : Except String String :=
  match r with
  | .error err => .error err
  | .ok n => .ok (sprintf06d (n + 100000))

/-- The retry loop of CreateSession: `fuel` iterations remain, `i` is the
loop counter, `code` the value of the variable `code`, `rand i` the result of
the call of `rand.Int` in iteration `i`. -/
def codeLoop (s : Store) (rand : Nat → Except String Nat) :
    Nat → Nat → String → Except String String
  | 0, _, code => .ok code
  | fuel + 1, i, _ =>
    match generateCode (rand i) with
    | .error err => .error ("failed to generate code: " ++ err)
    | .ok code =>
      if (mapGet s.sessions code).isSome then codeLoop s rand fuel (i + 1) code
      else .ok code

/-- CreateSession creates a new session with the connection of the sender. -/
def Store.CreateSession (s : Store) (rand : Nat → Except String Nat) (now : Int)
    (senderConn : Option Nat) (metadata : FileMetadata) :
    Except String Session × Store :=
  match codeLoop s rand 10 0 "" with
  | .error err => (.error err, s)
  | .ok code =>
    let session : Session :=
      { Code := code, SenderConn := senderConn, ReceiverConn := none,
        FileMetadata := metadata, CreatedAt := now }
    (.ok session, { sessions := mapSet s.sessions code session })

/-- GetSession retrieves a session by code. -/
def Store.GetSession (s : Store) (code : String) : Option Session :=
  mapGet s.sessions code

/-- JoinSession adds the receiver to an existing session. -/
def Store.JoinSession (s : Store) (code : String) (receiverConn : Option Nat) :
    Except String Session × Store :=
  match mapGet s.sessions code with
  | none => (.error "session not found", s)
  | some session =>
    if session.ReceiverConn ≠ none then
      (.error "session already has a receiver", s)
    else
      let session' := { session with ReceiverConn := receiverConn }
      (.ok session',
        { sessions := s.sessions.map
            (fun e => if e.1 == code then (e.1, session') else e) })

/-- RemoveSession deletes a session. -/
def Store.RemoveSession (s : Store) (code : String) : Store :=
  { sessions := mapDelete s.sessions code }

/-- GetSessionByConnection finds a session by either sender or receiver
connection: the first one in the enumeration of the map. -/
def Store.GetSessionByConnection (s : Store) (conn : Option Nat) : Option Session :=
  (s.sessions.find?
    (fun e => e.2.SenderConn == conn || e.2.ReceiverConn == conn)).map Prod.snd

/-- Reduction of an integer to the range of `int64` (two's complement). -/
def wrapInt64 (x : Int) : Int := (x + 2 ^ 63) % 2 ^ 64 - 2 ^ 63

/-- CleanupOldSessions removes sessions older than the given duration; `now`
is the result of `time.Now()`. Returns the number removed. -/
def Store.CleanupOldSessions (s : Store) (now : Int) (maxAge : Int) : Nat × Store :=
  let cutoff := now + wrapInt64 (-maxAge)
  s.sessions.foldl
    (fun (acc : Nat × Store) e =>
      if e.2.CreatedAt < cutoff then (acc.1 + 1, acc.2.RemoveSession e.1) else acc)
    (0, s)

/-! ## internal/handlers/signaling.go -/

/-- The library functions `json.Unmarshal` (into a `FileMetadata`, `none` on a
decoding error) and `json.Marshal` (of a `FileMetadata`), which the handlers
call and the repository does not define. -/
structure Json where
  unmarshal : Option String → Option FileMetadata
  marshal : FileMetadata → String

/-- The envelopes written by a handler, each with the connection written to. -/
abbrev Sends := List (Nat × SignalMessage)

/-- The function sendMessage sends a SignalMessage to a connection. -/
def sendMessage (conn : Option Nat) (msg : SignalMessage) : Sends :=
  match conn with
  | none => []
  | some c => [(c, msg)]

/-- The function sendError sends an error message to a connection. -/
def sendError (conn : Option Nat) (code : String) (errMsg : String) : Sends :=
  sendMessage conn (NewErrorMessage code errMsg)

/-- The function handleCreate processes a request to create a new sharing session. -/
def handleCreate (J : Json) (rand : Nat → Except String Nat) (now : Int)
    (store : Store) (conn : Option Nat) (msg : SignalMessage) : Store × Sends :=
  match J.unmarshal msg.Payload with
  | none => (store, sendError conn "" "Invalid file metadata")
  | some metadata =>
    match store.CreateSession rand now conn metadata with
    | (.error _, store') => (store', sendError conn "" "Failed to create session")
    | (.ok sess, store') =>
      (store', sendMessage conn
        { Type_ := TypeCreated, Code := sess.Code, Payload := some "\x7b\x7d", Error := "" })

/-- The function handleJoin processes a request to join an existing session. -/
def handleJoin (J : Json) (store : Store) (conn : Option Nat) (msg : SignalMessage) :
    Store × Sends :=
  let code := msg.Code
  if code == "" then (store, sendError conn "" "Code is required")
  else
    match store.JoinSession code conn with
    | (.error err, store') => (store', sendError conn code err)
    | (.ok sess, store') =>
      (store',
        sendMessage conn
          { Type_ := TypeJoined, Code := code,
            Payload := some (J.marshal sess.FileMetadata), Error := "" }
        ++ sendMessage sess.SenderConn
          { Type_ := TypeReceiverJoined, Code := code, Payload := some "\x7b\x7d", Error := "" })

/-- The function handleAccept processes the acceptance of the transfer by the receiver. -/
def handleAccept (store : Store) (conn : Option Nat) (msg : SignalMessage) : Store × Sends :=
  match store.GetSession msg.Code with
  | none => (store, sendError conn msg.Code "Session not found")
  | some sess => (store, sendMessage sess.SenderConn msg)

/-- The function handleRelay forwards WebRTC signaling messages to the peer. -/
def handleRelay (store : Store) (conn : Option Nat) (msg : SignalMessage) : Store × Sends :=
  match store.GetSession msg.Code with
  | none => (store, sendError conn msg.Code "Session not found")
  | some sess =>
    let targetConn := if conn = sess.SenderConn then sess.ReceiverConn else sess.SenderConn
    if targetConn = none then (store, sendError conn msg.Code "Peer not connected")
    else (store, sendMessage targetConn msg)

/-- The function handleClose processes a session close request. -/
def handleClose (store : Store) (conn : Option Nat) (msg : SignalMessage) : Store × Sends :=
  match store.GetSession msg.Code with
  | none => (store, [])
  | some sess =>
    let targetConn := if conn = sess.SenderConn then sess.ReceiverConn else sess.SenderConn
    let sent :=
      if targetConn ≠ none then
        sendMessage targetConn
          { Type_ := TypeClose, Code := msg.Code, Payload := none, Error := "" }
      else []
    (store.RemoveSession msg.Code, sent)

/-- The function handleDisconnect cleans up when a connection is lost. -/
def handleDisconnect (store : Store) (conn : Option Nat) : Store × Sends :=
  match store.GetSessionByConnection conn with
  | none => (store, [])
  | some sess =>
    let targetConn := if conn = sess.SenderConn then sess.ReceiverConn else sess.SenderConn
    let sent :=
      if targetConn ≠ none then
        sendMessage targetConn
          { Type_ := TypeClose, Code := sess.Code, Payload := none,
            Error := "Peer disconnected" }
      else []
    (store.RemoveSession sess.Code, sent)

/-- The function routeMessage handles the different message types. -/
def routeMessage (J : Json) (rand : Nat → Except String Nat) (now : Int)
    (store : Store) (conn : Option Nat) (msg : SignalMessage) : Store × Sends :=
  if msg.Type_ = TypeCreate then handleCreate J rand now store conn msg
  else if msg.Type_ = TypeJoin then handleJoin J store conn msg
  else if msg.Type_ = TypeAccept then handleAccept store conn msg
  else if msg.Type_ = TypeOffer ∨ msg.Type_ = TypeAnswer ∨ msg.Type_ = TypeIceCandidate then
    handleRelay store conn msg
  else if msg.Type_ = TypeClose then handleClose store conn msg
  else (store, sendError conn msg.Code "Unknown message type")

/-! ## Concrete data used in examples -/

/-- The file descriptor of the examples. -/
def sampleMetadata : FileMetadata := { Name := "a.txt", Size := 10, Type_ := "text/plain" }

/-- The JSON text of `sampleMetadata`. -/
def samplePayload : String :=
  "\x7b\"name\":\"a.txt\",\"size\":10,\"type\":\"text/plain\"\x7d"

/-- A description of the JSON library on the one document the examples use:
`samplePayload` decodes to `sampleMetadata`, nothing else is decoded, and a
descriptor is encoded with its fields in declaration order. -/
def sampleJson : Json where
  unmarshal := fun p => if p = some samplePayload then some sampleMetadata else none
  marshal := fun m =>
    "\x7b\"name\":\"" ++ m.Name ++ "\",\"size\":" ++ toString m.Size ++
      ",\"type\":\"" ++ m.Type_ ++ "\"\x7d"

/-- A random source whose every draw is `n`. -/
def constRand (n : Nat) : Nat → Except String Nat := fun _ => .ok n

/-- A session with sender `1` and no receiver, created at instant `0`. -/
def openSession (code : String) : Session :=
  { Code := code, SenderConn := some 1, ReceiverConn := none,
    FileMetadata := sampleMetadata, CreatedAt := 0 }

/-- A session with sender `1` and receiver `2`, created at instant `0`. -/
def joinedSession (code : String) : Session :=
  { Code := code, SenderConn := some 1, ReceiverConn := some 2,
    FileMetadata := sampleMetadata, CreatedAt := 0 }

/-- The session that connection `1` creates at instant `7` when the draw is
`23456`. -/
def firstSession : Session :=
  { Code := "123456", SenderConn := some 1, ReceiverConn := none,
    FileMetadata := sampleMetadata, CreatedAt := 7 }

/-- A registry holding one session without receiver, under code `100000`. -/
def openStore : Store := { sessions := [("100000", openSession "100000")] }

/-- A registry holding one joined session, under code `100000`. -/
def joinedStore : Store := { sessions := [("100000", joinedSession "100000")] }

/-! ## Predicates on registries -/

/-- The association list represents a map: no code is the key of two entries. -/
def Store.IsMap (s : Store) : Prop := (s.sessions.map Prod.fst).Nodup

instance (s : Store) : Decidable s.IsMap := by
  unfold Store.IsMap
  exact inferInstance

/-- The session was created strictly before the instant `cutoff`. -/
def expiredAt (cutoff : Int) (e : String × Session) : Bool := decide (e.2.CreatedAt < cutoff)

/-- A registry with one session created one second before the instant `now`
of the example. -/
def sweepStore : Store :=
  { sessions := [("100000", { Code := "100000", SenderConn := some 1, ReceiverConn := none,
                              FileMetadata := sampleMetadata,
                              CreatedAt := 1799999999000000000 })] }

/-- Each entry is stored under the code its session carries. -/
def Store.KeyedByCode (s : Store) : Prop := ∀ e ∈ s.sessions, e.2.Code = e.1

/-- The connection `c` is the sender or the receiver of the session. -/
def Session.hasConn (sess : Session) (c : Nat) : Prop :=
  sess.SenderConn = some c ∨ sess.ReceiverConn = some c

instance (sess : Session) (c : Nat) : Decidable (sess.hasConn c) := by
  unfold Session.hasConn
  exact inferInstance

/-- The connection `c` is in no slot of any entry of the registry. -/
def Store.connFree (s : Store) (c : Nat) : Prop := ∀ e ∈ s.sessions, ¬ e.2.hasConn c

instance (s : Store) (c : Nat) : Decidable (s.connFree c) := by
  unfold Store.connFree
  exact inferInstance

/-- Each connection occurs in at most one live session, as sender or as
receiver: two codes whose sessions both hold the connection are the same code. -/
def Store.connInAtMostOneSession (s : Store) : Prop :=
  ∀ (c : Nat) (k₁ k₂ : String) (s₁ s₂ : Session),
    s.GetSession k₁ = some s₁ → s.GetSession k₂ = some s₂ →
    s₁.hasConn c → s₂.hasConn c → k₁ = k₂

/-- The registry states reached from the empty registry by routed messages
and disconnect cleanups of connections. `G s c m` says whether connection `c`
may send the envelope `m` in state `s`. The rule `reorder` accounts for the
unspecified enumeration order of the map. -/
inductive Reach (J : Json) (G : Store → Nat → SignalMessage → Prop) : Store → Prop
  | empty : Reach J G NewStore
  | route (s : Store) (c : Nat) (m : SignalMessage) (rand : Nat → Except String Nat)
      (now : Int) : Reach J G s → G s c m →
      Reach J G (routeMessage J rand now s (some c) m).1
  | disconnect (s : Store) (c : Nat) : Reach J G s →
      Reach J G (handleDisconnect s (some c)).1
  | reorder (s s' : Store) : Reach J G s → s.sessions.Perm s'.sessions → Reach J G s'

/-- Every connection may send every envelope. -/
def anyMessage : Store → Nat → SignalMessage → Prop := fun _ _ _ => True

/-- A connection sends create or join only while it is in no slot of a live
session. -/
def oneSessionPerConn : Store → Nat → SignalMessage → Prop :=
  fun s c m => (m.Type_ = TypeCreate ∨ m.Type_ = TypeJoin) → s.connFree c

/-- The registry states reachable through the router. -/
def Reachable (J : Json) (s : Store) : Prop := Reach J anyMessage s

/-- A create envelope carrying `samplePayload`. -/
def createMsg : SignalMessage :=
  { Type_ := "create", Code := "", Payload := some samplePayload, Error := "" }

/-- A join envelope for the code. -/
def joinMsg (code : String) : SignalMessage :=
  { Type_ := "join", Code := code, Payload := none, Error := "" }

/-- Connection `1` creates a session (the draw is `0`, the code `100000`). -/
def afterCreate : Store :=
  (routeMessage sampleJson (constRand 0) 0 NewStore (some 1) createMsg).1

/-- Then connection `1` creates a second session (the draw is `1`, the code
`100001`). -/
def afterTwoCreates : Store :=
  (routeMessage sampleJson (constRand 1) 0 afterCreate (some 1) createMsg).1

/-- After `afterCreate`, connection `2` joins the session `100000`. -/
def afterJoin : Store :=
  (routeMessage sampleJson (constRand 0) 0 afterCreate (some 2) (joinMsg "100000")).1

/-- After `afterJoin`, connection `1` creates a second session, `100001`. -/
def afterJoinAndCreate : Store :=
  (routeMessage sampleJson (constRand 1) 0 afterJoin (some 1) createMsg).1

/-- Three sessions created at the instants `10`, `20` and `30`. -/
def threeStore : Store :=
  { sessions :=
      [("100000", { openSession "100000" with CreatedAt := 10 }),
       ("100001", { openSession "100001" with CreatedAt := 20 }),
       ("100002", { openSession "100002" with CreatedAt := 30 })] }

/-- Two entries of the registry that hold the same connection have the same
code. -/
def Store.connUnique (s : Store) : Prop :=
  ∀ (c : Nat), ∀ e₁ ∈ s.sessions, ∀ e₂ ∈ s.sessions,
    e₁.2.hasConn c → e₂.2.hasConn c → e₁.1 = e₂.1

/-- An envelope of a kind the router does not know. -/
def pingMsg : SignalMessage :=
  { Type_ := "ping", Code := "100000", Payload := some "x", Error := "" }

/-- The draw `r` is a number whose code is live in the registry. -/
def collides (s : Store) (r : Except String Nat) : Prop :=
  ∃ n, r = .ok n ∧ (s.GetSession (sprintf06d (n + 100000))).isSome = true

/-- The registry states reached from the empty registry by the operations of
the store that write it. The rule `reorder` accounts for the unspecified
enumeration order of the map. -/
inductive RegReach : Store → Prop
  | empty : RegReach NewStore
  | create (s : Store) (rand : Nat → Except String Nat) (now : Int) (conn : Option Nat)
      (d : FileMetadata) : RegReach s → RegReach (s.CreateSession rand now conn d).2
  | join (s : Store) (k : String) (conn : Option Nat) : RegReach s →
      RegReach (s.JoinSession k conn).2
  | remove (s : Store) (k : String) : RegReach s → RegReach (s.RemoveSession k)
  | sweep (s : Store) (now maxAge : Int) : RegReach s →
      RegReach (s.CleanupOldSessions now maxAge).2
  | reorder (s s' : Store) : RegReach s → s.sessions.Perm s'.sessions → RegReach s'

/-- The registry after `CreateSession` by connection `1` (code `100000`) and
`JoinSession` by connection `2`, called on the store directly. -/
def regJoined : Store :=
  ((NewStore.CreateSession (constRand 0) 0 (some 1) sampleMetadata).2.JoinSession
    "100000" (some 2)).2

/-- The number that a string of decimal digits denotes. -/
def decimalValue (code : String) : Nat :=
  code.data.foldl (fun acc ch => 10 * acc + (ch.toNat - 48)) 0

/-- An offer envelope for the code. -/
def offerMsg (code : String) : SignalMessage :=
  { Type_ := "offer", Code := code, Payload := some "sdp", Error := "" }

/-- A close envelope for the code. -/
def closeMsg (code : String) : SignalMessage :=
  { Type_ := "close", Code := code, Payload := none, Error := "" }

/-! ## The map operations -/

theorem mapGet_nil (k : String) : mapGet [] k = none := rfl

theorem mapGet_cons (k k' : String) (v : Session) (m : List (String × Session)) :
    mapGet ((k', v) :: m) k = if k = k' then some v else mapGet m k := by
  unfold mapGet
  by_cases h : k = k'
  · simp [List.lookup_cons, h]
  · have hb : (k == k') = false := by simpa using h
    simp [List.lookup_cons, hb, h]

theorem mapDelete_cons (k k' : String) (v : Session) (m : List (String × Session)) :
    mapDelete ((k', v) :: m) k = if k' = k then mapDelete m k else (k', v) :: mapDelete m k := by
  unfold mapDelete
  by_cases h : k' = k <;> simp [List.filter_cons, h]

theorem mapGet_mapDelete_self (m : List (String × Session)) (k : String) :
    mapGet (mapDelete m k) k = none := by
  induction m with
  | nil => rfl
  | cons e m ih =>
    obtain ⟨k', v⟩ := e
    rw [mapDelete_cons]
    by_cases h : k' = k
    · simpa [h] using ih
    · have h' : ¬ k = k' := fun e => h e.symm
      simp [h, mapGet_cons, h', ih]

theorem mapGet_mapDelete_ne (m : List (String × Session)) (k k' : String) (hne : k' ≠ k) :
    mapGet (mapDelete m k) k' = mapGet m k' := by
  induction m with
  | nil => rfl
  | cons e m ih =>
    obtain ⟨k₀, v⟩ := e
    rw [mapDelete_cons]
    by_cases h : k₀ = k
    · subst h
      rw [if_pos rfl, mapGet_cons, if_neg hne, ih]
    · rw [if_neg h, mapGet_cons, mapGet_cons, ih]

theorem mapGet_mapSet_self (m : List (String × Session)) (k : String) (v : Session) :
    mapGet (mapSet m k v) k = some v := by
  simp [mapSet, mapGet_cons]

theorem mapGet_mapSet_ne (m : List (String × Session)) (k k' : String) (v : Session)
    (hne : k' ≠ k) : mapGet (mapSet m k v) k' = mapGet m k' := by
  simp [mapSet, mapGet_cons, hne, mapGet_mapDelete_ne m k k' hne]

/-- Reading the map after the update of JoinSession. -/
theorem mapGet_map_update (m : List (String × Session)) (k k' : String) (v : Session) :
    mapGet (m.map (fun e => if e.1 == k then (e.1, v) else e)) k' =
      if k' = k then (mapGet m k').map (fun _ => v) else mapGet m k' := by
  induction m with
  | nil => simp [mapGet_nil]
  | cons e m ih =>
    obtain ⟨k₀, v₀⟩ := e
    rw [List.map_cons]
    by_cases h0 : k₀ = k
    · subst h0
      rw [show (if ((k₀, v₀) : String × Session).1 == k₀ then (((k₀, v₀) : String × Session).1, v)
            else (k₀, v₀)) = (k₀, v) from by simp]
      rw [mapGet_cons, mapGet_cons, ih]
      by_cases h1 : k' = k₀
      · simp [h1]
      · simp [h1]
    · have hb : (k₀ == k) = false := by simpa using h0
      rw [show (if ((k₀, v₀) : String × Session).1 == k then (((k₀, v₀) : String × Session).1, v)
            else (k₀, v₀)) = (k₀, v₀) from by simp [hb]]
      rw [mapGet_cons, mapGet_cons, ih]
      by_cases h1 : k' = k₀
      · have h2 : ¬ k' = k := fun e => h0 (h1.symm.trans e)
        simp [h1, h0]
      · simp [h1]

/-! ## Registry operations -/

theorem GetSession_RemoveSession_self (s : Store) (k : String) :
    (s.RemoveSession k).GetSession k = none :=
  mapGet_mapDelete_self s.sessions k

theorem GetSession_RemoveSession_ne (s : Store) (k k' : String) (hne : k' ≠ k) :
    (s.RemoveSession k).GetSession k' = s.GetSession k' :=
  mapGet_mapDelete_ne s.sessions k k' hne

/-- A successful CreateSession stores the returned session under the code it carries;
the other fields are those of the call. -/
theorem CreateSession_ok (s : Store) (rand : Nat → Except String Nat) (now : Int)
    (conn : Option Nat) (d : FileMetadata) (S : Session)
    (h : (s.CreateSession rand now conn d).1 = .ok S) :
    S = { Code := S.Code, SenderConn := conn, ReceiverConn := none, FileMetadata := d,
          CreatedAt := now } ∧
    (s.CreateSession rand now conn d).2 = { sessions := mapSet s.sessions S.Code S } := by
  unfold Store.CreateSession at h ⊢
  cases hc : codeLoop s rand 10 0 "" with
  | error err => simp [hc] at h
  | ok code =>
    simp only [hc] at h ⊢
    injection h with h
    subst h
    exact ⟨rfl, rfl⟩

/-- A successful JoinSession: the session under the code had no receiver, the
result is that session with the receiver set, and it is what the map holds. -/
theorem JoinSession_ok (s : Store) (k : String) (conn : Option Nat) (sess : Session)
    (hlive : s.GetSession k = some sess) (hnone : sess.ReceiverConn = none) :
    (s.JoinSession k conn).1 = .ok { sess with ReceiverConn := conn } ∧
    (s.JoinSession k conn).2.GetSession k = some { sess with ReceiverConn := conn } ∧
    ∀ k', k' ≠ k → (s.JoinSession k conn).2.GetSession k' = s.GetSession k' := by
  unfold Store.GetSession at hlive
  unfold Store.JoinSession
  rw [hlive]
  have hif : ¬ (sess.ReceiverConn ≠ none) := fun h => h hnone
  simp only [if_neg hif]
  refine ⟨trivial, ?_, ?_⟩
  · show mapGet (s.sessions.map _) k = _
    rw [mapGet_map_update, if_pos rfl, hlive]
    rfl
  · intro k' hne
    show mapGet (s.sessions.map _) k' = _
    rw [mapGet_map_update, if_neg hne]
    rfl

/-- JoinSession on a session that has a receiver fails and changes nothing. -/
theorem JoinSession_has_receiver (s : Store) (k : String) (conn : Option Nat) (sess : Session)
    (hlive : s.GetSession k = some sess) (hsome : sess.ReceiverConn ≠ none) :
    s.JoinSession k conn = (.error "session already has a receiver", s) := by
  unfold Store.GetSession at hlive
  unfold Store.JoinSession
  simp [hlive, hsome]

/-- The router on a relay kind is handleRelay. -/
theorem routeMessage_relay (J : Json) (rand : Nat → Except String Nat) (now : Int)
    (s : Store) (conn : Option Nat) (m : SignalMessage)
    (hkind : m.Type_ = TypeOffer ∨ m.Type_ = TypeAnswer ∨ m.Type_ = TypeIceCandidate) :
    routeMessage J rand now s conn m = handleRelay s conn m := by
  unfold routeMessage
  rcases hkind with h | h | h <;>
    simp [h, TypeCreate, TypeJoin, TypeAccept, TypeOffer, TypeAnswer, TypeIceCandidate]

/-- The router on a close envelope is handleClose. -/
theorem routeMessage_close (J : Json) (rand : Nat → Except String Nat) (now : Int)
    (s : Store) (conn : Option Nat) (m : SignalMessage) (hkind : m.Type_ = TypeClose) :
    routeMessage J rand now s conn m = handleClose s conn m := by
  unfold routeMessage
  simp [hkind, TypeCreate, TypeJoin, TypeAccept, TypeOffer, TypeAnswer, TypeIceCandidate,
    TypeClose]

/-! ## The expiry sweep -/

theorem wrapInt64_of_range (x : Int) (hlo : -2 ^ 63 ≤ x) (hhi : x < 2 ^ 63) :
    wrapInt64 x = x := by
  unfold wrapInt64
  rw [Int.emod_eq_of_lt (by omega) (by omega)]
  omega

/-- Reading a map filtered by a predicate on the keys. -/
theorem mapGet_filter_key (m : List (String × Session)) (p : String → Bool) (k : String) :
    mapGet (m.filter (fun e => p e.1)) k = if p k then mapGet m k else none := by
  induction m with
  | nil => simp [mapGet_nil]
  | cons e m ih =>
    obtain ⟨k₀, v⟩ := e
    by_cases hp : p k₀ = true
    · rw [List.filter_cons_of_pos (by simpa using hp), mapGet_cons, mapGet_cons, ih]
      by_cases hk : k = k₀
      · subst hk
        simp [hp]
      · simp [hk]
    · rw [List.filter_cons_of_neg (by simpa using hp), mapGet_cons, ih]
      by_cases hk : k = k₀
      · subst hk
        simp [hp]
      · simp [hk]

/-- In a map, the entry found under the key of a member is that member. -/
theorem mapGet_of_mem (m : List (String × Session)) (hm : (m.map Prod.fst).Nodup)
    (k : String) (v : Session) (hmem : (k, v) ∈ m) : mapGet m k = some v := by
  induction m with
  | nil => simp at hmem
  | cons e m ih =>
    obtain ⟨k₀, v₀⟩ := e
    rw [List.map_cons, List.nodup_cons] at hm
    rw [mapGet_cons]
    rcases List.mem_cons.mp hmem with h | h
    · injection h with h1 h2
      subst h1
      subst h2
      simp
    · have hne : k ≠ k₀ := by
        intro hk
        subst hk
        exact hm.1 (List.mem_map.mpr ⟨(k, v), h, rfl⟩)
      rw [if_neg hne]
      exact ih hm.2 h

theorem mem_of_mapGet (m : List (String × Session)) (k : String) (v : Session)
    (h : mapGet m k = some v) : (k, v) ∈ m := by
  induction m with
  | nil => simp [mapGet_nil] at h
  | cons e m ih =>
    obtain ⟨k₀, v₀⟩ := e
    rw [mapGet_cons] at h
    by_cases hk : k = k₀
    · subst hk
      rw [if_pos rfl] at h
      injection h with h
      subst h
      exact List.mem_cons_self _ _
    · rw [if_neg hk] at h
      exact List.mem_cons_of_mem _ (ih h)

/-- The loop of CleanupOldSessions, from any accumulator: the counter grows by
the number of expired entries enumerated, and the codes of those entries are
deleted from the map. -/
theorem cleanup_foldl (cutoff : Int) (l : List (String × Session)) (n : Nat) (st : Store) :
    l.foldl
      (fun (acc : Nat × Store) e =>
        if e.2.CreatedAt < cutoff then (acc.1 + 1, acc.2.RemoveSession e.1) else acc)
      (n, st)
    = (n + (l.filter (expiredAt cutoff)).length,
       { sessions := st.sessions.filter
           (fun e => !((l.filter (expiredAt cutoff)).map Prod.fst).contains e.1) }) := by
  induction l generalizing n st with
  | nil => simp
  | cons e l ih =>
    rw [List.foldl_cons]
    by_cases hexp : e.2.CreatedAt < cutoff
    · have hb : expiredAt cutoff e = true := by simp [expiredAt, hexp]
      rw [if_pos hexp, ih, List.filter_cons_of_pos hb]
      refine Prod.ext ?_ ?_
      · simp only [List.length_cons]
        omega
      · simp only [Store.RemoveSession, mapDelete, List.filter_filter, List.map_cons,
          List.contains_cons]
        congr 1
        apply List.filter_congr
        intro x _
        cases h1 : (x.1 == e.1) <;> simp [h1]
    · have hb : ¬ expiredAt cutoff e = true := by simp [expiredAt, hexp]
      rw [if_neg hexp, ih, List.filter_cons_of_neg hb]

/-- What CleanupOldSessions computes on a map: the number of expired entries,
and the entries that are not expired. -/
theorem CleanupOldSessions_eq (s : Store) (hmap : s.IsMap) (now maxAge : Int) :
    s.CleanupOldSessions now maxAge
      = ((s.sessions.filter (expiredAt (now + wrapInt64 (-maxAge)))).length,
         { sessions := s.sessions.filter
             (fun e => !(expiredAt (now + wrapInt64 (-maxAge)) e)) }) := by
  unfold Store.CleanupOldSessions
  simp only []
  rw [cleanup_foldl, Nat.zero_add]
  congr 2
  apply List.filter_congr
  intro x hx
  congr 1
  generalize now + wrapInt64 (-maxAge) = cutoff
  cases hc : expiredAt cutoff x
  · rw [Bool.eq_false_iff]
    intro hcon
    rw [List.contains_iff_exists_mem_beq] at hcon
    obtain ⟨k, hk, hkx⟩ := hcon
    have hkx' : x.1 = k := by simpa using hkx
    subst hkx'
    obtain ⟨y, hy, hyx⟩ := List.mem_map.mp hk
    rw [List.mem_filter] at hy
    have h1 := mapGet_of_mem s.sessions hmap y.1 y.2 hy.1
    have h2 := mapGet_of_mem s.sessions hmap x.1 x.2 hx
    rw [hyx, h2] at h1
    injection h1 with h1
    have hyexp := hy.2
    unfold expiredAt at hyexp hc
    rw [← h1] at hyexp
    rw [hyexp] at hc
    exact Bool.noConfusion hc
  · rw [List.contains_iff_exists_mem_beq]
    exact ⟨x.1, List.mem_map.mpr ⟨x, List.mem_filter.mpr ⟨hx, hc⟩, rfl⟩, by simp⟩

/-! ## The effect of the handlers on the registry -/

/-- CreateSession fails and leaves the registry as it is, or stores a new
session without receiver under its code. -/
theorem CreateSession_cases (s : Store) (rand : Nat → Except String Nat) (now : Int)
    (conn : Option Nat) (d : FileMetadata) :
    (∃ err, s.CreateSession rand now conn d = (.error err, s)) ∨
    (∃ code, s.CreateSession rand now conn d =
      (.ok { Code := code, SenderConn := conn, ReceiverConn := none, FileMetadata := d,
             CreatedAt := now },
       { sessions := mapSet s.sessions code
           { Code := code, SenderConn := conn, ReceiverConn := none, FileMetadata := d,
             CreatedAt := now } })) := by
  unfold Store.CreateSession
  cases codeLoop s rand 10 0 "" with
  | error err => exact Or.inl ⟨err, rfl⟩
  | ok code => exact Or.inr ⟨code, rfl⟩

/-- JoinSession fails and leaves the registry as it is, or sets the receiver
of the session under the code, which had none. -/
theorem JoinSession_cases (s : Store) (k : String) (conn : Option Nat) :
    (∃ err, s.JoinSession k conn = (.error err, s)) ∨
    (∃ sess, s.GetSession k = some sess ∧ sess.ReceiverConn = none ∧
      s.JoinSession k conn =
        (.ok { sess with ReceiverConn := conn },
         { sessions := s.sessions.map
             (fun e => if e.1 == k then (e.1, { sess with ReceiverConn := conn }) else e) })) := by
  unfold Store.JoinSession Store.GetSession
  cases hget : mapGet s.sessions k with
  | none => exact Or.inl ⟨_, rfl⟩
  | some sess =>
    by_cases hr : sess.ReceiverConn = none
    · refine Or.inr ⟨sess, rfl, hr, ?_⟩
      have hif : ¬ (sess.ReceiverConn ≠ none) := fun h => h hr
      simp only [if_neg hif]
    · refine Or.inl ⟨"session already has a receiver", ?_⟩
      have hif : sess.ReceiverConn ≠ none := hr
      simp only [if_pos hif]

/-- The registry after a routed message: unchanged, or extended by a create,
or updated by a join, or reduced by the removal of one code. -/
theorem routeMessage_store (J : Json) (rand : Nat → Except String Nat) (now : Int)
    (s : Store) (conn : Option Nat) (m : SignalMessage) :
    (routeMessage J rand now s conn m).1 = s ∨
    (m.Type_ = TypeCreate ∧ ∃ code d,
      (routeMessage J rand now s conn m).1 =
        { sessions := mapSet s.sessions code
            { Code := code, SenderConn := conn, ReceiverConn := none, FileMetadata := d,
              CreatedAt := now } }) ∨
    (m.Type_ = TypeJoin ∧ ∃ sess, s.GetSession m.Code = some sess ∧
      sess.ReceiverConn = none ∧
      (routeMessage J rand now s conn m).1 =
        { sessions := s.sessions.map
            (fun e => if e.1 == m.Code then (e.1, { sess with ReceiverConn := conn })
              else e) }) ∨
    (∃ k, (routeMessage J rand now s conn m).1 = s.RemoveSession k) := by
  unfold routeMessage
  by_cases h1 : m.Type_ = TypeCreate
  · rw [if_pos h1]
    unfold handleCreate
    cases J.unmarshal m.Payload with
    | none => exact Or.inl rfl
    | some d =>
      rcases CreateSession_cases s rand now conn d with ⟨err, h⟩ | ⟨code, h⟩
      · left
        simp only [h]
      · right
        left
        refine ⟨h1, code, d, ?_⟩
        simp only [h]
  · rw [if_neg h1]
    by_cases h2 : m.Type_ = TypeJoin
    · rw [if_pos h2]
      unfold handleJoin
      by_cases h0 : (m.Code == "") = true
      · left
        simp only [h0, if_true]
      · simp only [h0]
        rcases JoinSession_cases s m.Code conn with ⟨err, h⟩ | ⟨sess, hg, hr, h⟩
        · left
          simp only [h]
          rfl
        · right
          right
          left
          refine ⟨h2, sess, hg, hr, ?_⟩
          simp only [h]
          rfl
    · rw [if_neg h2]
      by_cases h3 : m.Type_ = TypeAccept
      · rw [if_pos h3]
        unfold handleAccept
        left
        cases s.GetSession m.Code <;> rfl
      · rw [if_neg h3]
        by_cases h4 : m.Type_ = TypeOffer ∨ m.Type_ = TypeAnswer ∨ m.Type_ = TypeIceCandidate
        · rw [if_pos h4]
          unfold handleRelay
          left
          cases s.GetSession m.Code with
          | none => rfl
          | some sess =>
            simp only []
            split <;> split <;> rfl
        · rw [if_neg h4]
          by_cases h5 : m.Type_ = TypeClose
          · rw [if_pos h5]
            unfold handleClose
            cases s.GetSession m.Code with
            | none => exact Or.inl rfl
            | some sess => exact Or.inr (Or.inr (Or.inr ⟨m.Code, rfl⟩))
          · rw [if_neg h5]
            exact Or.inl rfl

/-- The registry after a disconnect cleanup: unchanged, or reduced by the
removal of one code. -/
theorem handleDisconnect_store (s : Store) (conn : Option Nat) :
    (handleDisconnect s conn).1 = s ∨ ∃ k, (handleDisconnect s conn).1 = s.RemoveSession k := by
  unfold handleDisconnect
  cases s.GetSessionByConnection conn with
  | none => exact Or.inl rfl
  | some sess => exact Or.inr ⟨sess.Code, rfl⟩

/-! ## Invariants of the reachable registries -/

theorem mem_mapDelete {m : List (String × Session)} {k : String} {e : String × Session}
    (h : e ∈ mapDelete m k) : e ∈ m ∧ e.1 ≠ k := by
  unfold mapDelete at h
  rw [List.mem_filter] at h
  exact ⟨h.1, by simpa using h.2⟩

theorem mem_mapSet {m : List (String × Session)} {k : String} {v : Session}
    {e : String × Session} (h : e ∈ mapSet m k v) : e = (k, v) ∨ (e ∈ m ∧ e.1 ≠ k) := by
  unfold mapSet at h
  rcases List.mem_cons.mp h with h | h
  · exact Or.inl h
  · exact Or.inr (mem_mapDelete h)

theorem IsMap_RemoveSession (s : Store) (k : String) (h : s.IsMap) :
    (s.RemoveSession k).IsMap :=
  List.Nodup.sublist ((List.filter_sublist _).map Prod.fst) h

theorem IsMap_mapSet (s : Store) (k : String) (v : Session) (h : s.IsMap) :
    ({ sessions := mapSet s.sessions k v } : Store).IsMap := by
  unfold Store.IsMap mapSet
  rw [List.map_cons, List.nodup_cons]
  refine ⟨?_, IsMap_RemoveSession s k h⟩
  intro hmem
  obtain ⟨e, he, hk⟩ := List.mem_map.mp hmem
  exact (mem_mapDelete he).2 hk

theorem map_update_keys (m : List (String × Session)) (k : String) (v : Session) :
    (m.map (fun e => if e.1 == k then (e.1, v) else e)).map Prod.fst = m.map Prod.fst := by
  rw [List.map_map]
  apply List.map_congr_left
  intro e _
  show (if e.1 == k then (e.1, v) else e).1 = e.1
  split <;> rfl

theorem IsMap_map_update (s : Store) (k : String) (v : Session) (h : s.IsMap) :
    ({ sessions := s.sessions.map (fun e => if e.1 == k then (e.1, v) else e) } :
      Store).IsMap := by
  unfold Store.IsMap
  rw [map_update_keys]
  exact h

theorem IsMap_perm (s s' : Store) (hp : s.sessions.Perm s'.sessions) (h : s.IsMap) :
    s'.IsMap :=
  (List.Perm.nodup_iff (hp.map Prod.fst)).mp h

theorem KeyedByCode_RemoveSession (s : Store) (k : String) (h : s.KeyedByCode) :
    (s.RemoveSession k).KeyedByCode :=
  fun e he => h e (mem_mapDelete he).1

/-- Every registry reached from the empty one is a map whose entries are
stored under the code of their session. -/
theorem Reach_wellFormed (J : Json) (G : Store → Nat → SignalMessage → Prop) (s : Store)
    (h : Reach J G s) : s.IsMap ∧ s.KeyedByCode := by
  induction h with
  | empty =>
    exact ⟨List.nodup_nil, fun e he => absurd he (List.not_mem_nil e)⟩
  | route s c m rand now _ _ ih =>
    rcases routeMessage_store J rand now s (some c) m with
      h | ⟨_, code, d, h⟩ | ⟨_, sess, hg, _, h⟩ | ⟨k, h⟩
    · rw [h]
      exact ih
    · rw [h]
      refine ⟨IsMap_mapSet s code _ ih.1, ?_⟩
      intro e he
      rcases mem_mapSet he with he | he
      · rw [he]
      · exact ih.2 e he.1
    · rw [h]
      refine ⟨IsMap_map_update s m.Code _ ih.1, ?_⟩
      intro e he
      obtain ⟨e₀, he₀, hee⟩ := List.mem_map.mp he
      by_cases hk : (e₀.1 == m.Code) = true
      · rw [if_pos hk] at hee
        rw [← hee]
        show sess.Code = e₀.1
        have hk' : e₀.1 = m.Code := by simpa using hk
        have := ih.2 (m.Code, sess) (mem_of_mapGet s.sessions m.Code sess hg)
        rw [hk']
        exact this
      · rw [if_neg hk] at hee
        rw [← hee]
        exact ih.2 e₀ he₀
    · rw [h]
      exact ⟨IsMap_RemoveSession s k ih.1, KeyedByCode_RemoveSession s k ih.2⟩
  | disconnect s c _ ih =>
    rcases handleDisconnect_store s (some c) with h | ⟨k, h⟩
    · rw [h]
      exact ih
    · rw [h]
      exact ⟨IsMap_RemoveSession s k ih.1, KeyedByCode_RemoveSession s k ih.2⟩
  | reorder s s' _ hp ih =>
    exact ⟨IsMap_perm s s' hp ih.1, fun e he => ih.2 e (hp.mem_iff.mpr he)⟩

/-- When a connection sends create or join only while it is in no slot, no
connection is ever held by entries under two codes. -/
theorem Reach_connUnique (J : Json) (s : Store) (h : Reach J oneSessionPerConn s) :
    s.connUnique := by
  induction h with
  | empty =>
    intro c e₁ h₁
    exact absurd h₁ (List.not_mem_nil e₁)
  | route s c m rand now hr hG ih =>
    have hwf := Reach_wellFormed J oneSessionPerConn s hr
    rcases routeMessage_store J rand now s (some c) m with
      h | ⟨hty, code, d, h⟩ | ⟨hty, sess, hg, hnone, h⟩ | ⟨k, h⟩
    · rw [h]
      exact ih
    · rw [h]
      have hfree : s.connFree c := hG (Or.inl hty)
      intro x e₁ h₁ e₂ h₂ hx₁ hx₂
      rcases mem_mapSet h₁ with h₁ | h₁ <;> rcases mem_mapSet h₂ with h₂ | h₂
      · rw [h₁, h₂]
      · exfalso
        rw [h₁] at hx₁
        have hxc : x = c := by
          rcases hx₁ with hx | hx
          · exact (Option.some.inj hx).symm
          · exact Option.noConfusion hx
        rw [hxc] at hx₂
        exact hfree e₂ h₂.1 hx₂
      · exfalso
        rw [h₂] at hx₂
        have hxc : x = c := by
          rcases hx₂ with hx | hx
          · exact (Option.some.inj hx).symm
          · exact Option.noConfusion hx
        rw [hxc] at hx₁
        exact hfree e₁ h₁.1 hx₁
      · exact ih x e₁ h₁.1 e₂ h₂.1 hx₁ hx₂
    · rw [h]
      have hfree : s.connFree c := hG (Or.inr hty)
      -- an entry of the updated map comes from an entry with the same code
      have hback : ∀ e ∈ s.sessions.map
          (fun e => if e.1 == m.Code then (e.1, { sess with ReceiverConn := some c }) else e),
          ∀ x, e.2.hasConn x →
            ∃ e₀ ∈ s.sessions, e₀.1 = e.1 ∧ ((x = c ∧ e.1 = m.Code) ∨ e₀.2.hasConn x) := by
        intro e he x hx
        obtain ⟨e₀, he₀, hee⟩ := List.mem_map.mp he
        by_cases hk : (e₀.1 == m.Code) = true
        · rw [if_pos hk] at hee
          have hk' : e₀.1 = m.Code := by simpa using hk
          have he₀s : e₀.2 = sess := by
            have h1 := mapGet_of_mem s.sessions hwf.1 e₀.1 e₀.2 he₀
            rw [hk'] at h1
            have h2 : mapGet s.sessions m.Code = some sess := hg
            rw [h2] at h1
            exact (Option.some.inj h1).symm
          refine ⟨e₀, he₀, by rw [← hee], ?_⟩
          rw [← hee] at hx
          rcases hx with hx | hx
          · right
            left
            rw [he₀s]
            exact hx
          · left
            exact ⟨(Option.some.inj hx).symm, by rw [← hee]; exact hk'⟩
        · rw [if_neg hk] at hee
          refine ⟨e₀, he₀, by rw [hee], Or.inr ?_⟩
          rw [hee]
          exact hx
      intro x e₁ h₁ e₂ h₂ hx₁ hx₂
      obtain ⟨a₁, ha₁, hk₁, hc₁⟩ := hback e₁ h₁ x hx₁
      obtain ⟨a₂, ha₂, hk₂, hc₂⟩ := hback e₂ h₂ x hx₂
      rcases hc₁ with ⟨hxc, hm₁⟩ | hc₁ <;> rcases hc₂ with ⟨hxc', hm₂⟩ | hc₂
      · rw [hm₁, hm₂]
      · exfalso
        rw [hxc] at hc₂
        exact hfree a₂ ha₂ hc₂
      · exfalso
        rw [hxc'] at hc₁
        exact hfree a₁ ha₁ hc₁
      · rw [← hk₁, ← hk₂]
        exact ih x a₁ ha₁ a₂ ha₂ hc₁ hc₂
    · rw [h]
      intro x e₁ h₁ e₂ h₂ hx₁ hx₂
      exact ih x e₁ (mem_mapDelete h₁).1 e₂ (mem_mapDelete h₂).1 hx₁ hx₂
  | disconnect s c _ ih =>
    rcases handleDisconnect_store s (some c) with h | ⟨k, h⟩
    · rw [h]
      exact ih
    · rw [h]
      intro x e₁ h₁ e₂ h₂ hx₁ hx₂
      exact ih x e₁ (mem_mapDelete h₁).1 e₂ (mem_mapDelete h₂).1 hx₁ hx₂
  | reorder s s' _ hp ih =>
    intro x e₁ h₁ e₂ h₂ hx₁ hx₂
    exact ih x e₁ (hp.mem_iff.mpr h₁) e₂ (hp.mem_iff.mpr h₂) hx₁ hx₂

/-! ## Disconnect cleanup -/

/-- In a map, when the sessions holding the connection `c` all live under the
code `k`, the scan of GetSessionByConnection finds the session under `k`. -/
theorem GetSessionByConnection_unique (s : Store) (hmap : s.IsMap) (k : String)
    (sess : Session) (c : Nat) (hlive : s.GetSession k = some sess) (hc : sess.hasConn c)
    (huniq : ∀ k' s', s.GetSession k' = some s' → s'.hasConn c → k' = k) :
    s.GetSessionByConnection (some c) = some sess := by
  unfold Store.GetSessionByConnection
  have hp : ∀ e : String × Session,
      (e.2.SenderConn == some c || e.2.ReceiverConn == some c) = true ↔ e.2.hasConn c := by
    intro e
    simp [Session.hasConn]
  cases hf : s.sessions.find?
      (fun e => e.2.SenderConn == some c || e.2.ReceiverConn == some c) with
  | none =>
    exfalso
    rw [List.find?_eq_none] at hf
    exact hf (k, sess) (mem_of_mapGet s.sessions k sess hlive) ((hp (k, sess)).mpr hc)
  | some e =>
    have hmem := List.mem_of_find?_eq_some hf
    have hpe : e.2.hasConn c := (hp e).mp (by simpa using List.find?_some hf)
    have hget : s.GetSession e.1 = some e.2 := mapGet_of_mem s.sessions hmap e.1 e.2 hmem
    have hk := huniq e.1 e.2 hget hpe
    rw [hk, hlive] at hget
    rw [Option.map_some', ← Option.some.inj hget]

/-! ## Routing by kind -/

/-- The router on a join envelope is handleJoin. -/
theorem routeMessage_join (J : Json) (rand : Nat → Except String Nat) (now : Int)
    (s : Store) (conn : Option Nat) (m : SignalMessage) (hkind : m.Type_ = TypeJoin) :
    routeMessage J rand now s conn m = handleJoin J s conn m := by
  unfold routeMessage
  simp [hkind, TypeCreate, TypeJoin]

/-- The router on a create envelope is handleCreate. -/
theorem routeMessage_create (J : Json) (rand : Nat → Except String Nat) (now : Int)
    (s : Store) (conn : Option Nat) (m : SignalMessage) (hkind : m.Type_ = TypeCreate) :
    routeMessage J rand now s conn m = handleCreate J rand now s conn m := by
  unfold routeMessage
  simp [hkind]

/-- The router on an accept envelope is handleAccept. -/
theorem routeMessage_accept (J : Json) (rand : Nat → Except String Nat) (now : Int)
    (s : Store) (conn : Option Nat) (m : SignalMessage) (hkind : m.Type_ = TypeAccept) :
    routeMessage J rand now s conn m = handleAccept s conn m := by
  unfold routeMessage
  simp [hkind, TypeCreate, TypeJoin, TypeAccept]

/-- The router on a kind it does not know replies with an error envelope. -/
theorem routeMessage_default (J : Json) (rand : Nat → Except String Nat) (now : Int)
    (s : Store) (conn : Option Nat) (m : SignalMessage)
    (h1 : m.Type_ ≠ TypeCreate) (h2 : m.Type_ ≠ TypeJoin) (h3 : m.Type_ ≠ TypeAccept)
    (h4 : m.Type_ ≠ TypeOffer) (h5 : m.Type_ ≠ TypeAnswer) (h6 : m.Type_ ≠ TypeIceCandidate)
    (h7 : m.Type_ ≠ TypeClose) :
    routeMessage J rand now s conn m = (s, sendError conn m.Code "Unknown message type") := by
  unfold routeMessage
  simp [h1, h2, h3, h4, h5, h6, h7]

/-- JoinSession on a code that is not live fails and changes nothing. -/
theorem JoinSession_not_found (s : Store) (k : String) (conn : Option Nat)
    (h : s.GetSession k = none) : s.JoinSession k conn = (.error "session not found", s) := by
  unfold Store.GetSession at h
  unfold Store.JoinSession
  rw [h]

/-! ## The connections a handler writes to -/

theorem mem_sendMessage {conn : Option Nat} {msg : SignalMessage} {t : Nat}
    {e : SignalMessage} (h : (t, e) ∈ sendMessage conn msg) : conn = some t ∧ e = msg := by
  unfold sendMessage at h
  cases conn with
  | none => exact absurd h (List.not_mem_nil _)
  | some a =>
    rw [List.mem_singleton] at h
    injection h with h1 h2
    exact ⟨by rw [h1], h2⟩

theorem mem_sendError {conn : Option Nat} {code errMsg : String} {t : Nat}
    {e : SignalMessage} (h : (t, e) ∈ sendError conn code errMsg) : conn = some t :=
  (mem_sendMessage h).1

/-- The function handleCreate writes to the calling connection only. -/
theorem handleCreate_addressee (J : Json) (rand : Nat → Except String Nat) (now : Int)
    (s : Store) (c : Nat) (m : SignalMessage) (t : Nat) (e : SignalMessage)
    (h : (t, e) ∈ (handleCreate J rand now s (some c) m).2) : t = c := by
  unfold handleCreate at h
  cases hu : J.unmarshal m.Payload with
  | none =>
    rw [hu] at h
    exact (Option.some.inj (mem_sendError h)).symm
  | some d =>
    rw [hu] at h
    rcases CreateSession_cases s rand now (some c) d with ⟨err, hc⟩ | ⟨code, hc⟩
    · simp only [hc] at h
      exact (Option.some.inj (mem_sendError h)).symm
    · simp only [hc] at h
      exact (Option.some.inj (mem_sendMessage h).1).symm

/-- The function handleJoin writes to the calling connection and to the sender
of the session under the code. -/
theorem handleJoin_addressee (J : Json) (s : Store) (c : Nat) (m : SignalMessage) (t : Nat)
    (e : SignalMessage) (h : (t, e) ∈ (handleJoin J s (some c) m).2) :
    t = c ∨ ∃ sess, s.GetSession m.Code = some sess ∧ sess.hasConn t := by
  unfold handleJoin at h
  by_cases h0 : (m.Code == "") = true
  · simp only [h0, if_true] at h
    exact Or.inl (Option.some.inj (mem_sendError h)).symm
  · simp only [h0] at h
    rcases JoinSession_cases s m.Code (some c) with ⟨err, hj⟩ | ⟨sess, hg, _, hj⟩
    · simp only [hj] at h
      exact Or.inl (Option.some.inj (mem_sendError h)).symm
    · simp only [hj] at h
      rcases List.mem_append.mp h with h | h
      · exact Or.inl (Option.some.inj (mem_sendMessage h).1).symm
      · exact Or.inr ⟨sess, hg, Or.inl (mem_sendMessage h).1⟩

/-- The function handleAccept writes to the calling connection or to the
sender of the session under the code. -/
theorem handleAccept_addressee (s : Store) (c : Nat) (m : SignalMessage) (t : Nat)
    (e : SignalMessage) (h : (t, e) ∈ (handleAccept s (some c) m).2) :
    t = c ∨ ∃ sess, s.GetSession m.Code = some sess ∧ sess.hasConn t := by
  unfold handleAccept at h
  cases hg : s.GetSession m.Code with
  | none =>
    rw [hg] at h
    exact Or.inl (Option.some.inj (mem_sendError h)).symm
  | some sess =>
    rw [hg] at h
    exact Or.inr ⟨sess, rfl, Or.inl (mem_sendMessage h).1⟩

/-- The function handleRelay writes to the calling connection or to a party of
the session under the code. -/
theorem handleRelay_addressee (s : Store) (c : Nat) (m : SignalMessage) (t : Nat)
    (e : SignalMessage) (h : (t, e) ∈ (handleRelay s (some c) m).2) :
    t = c ∨ ∃ sess, s.GetSession m.Code = some sess ∧ sess.hasConn t := by
  unfold handleRelay at h
  cases hg : s.GetSession m.Code with
  | none =>
    rw [hg] at h
    exact Or.inl (Option.some.inj (mem_sendError h)).symm
  | some sess =>
    rw [hg] at h
    simp only [] at h
    by_cases hs : some c = sess.SenderConn
    · rw [if_pos hs] at h
      by_cases hn : sess.ReceiverConn = none
      · rw [if_pos hn] at h
        exact Or.inl (Option.some.inj (mem_sendError h)).symm
      · rw [if_neg hn] at h
        exact Or.inr ⟨sess, rfl, Or.inr (mem_sendMessage h).1⟩
    · rw [if_neg hs] at h
      by_cases hn : sess.SenderConn = none
      · rw [if_pos hn] at h
        exact Or.inl (Option.some.inj (mem_sendError h)).symm
      · rw [if_neg hn] at h
        exact Or.inr ⟨sess, rfl, Or.inl (mem_sendMessage h).1⟩

/-- The function handleClose writes to a party of the session under the code. -/
theorem handleClose_addressee (s : Store) (c : Nat) (m : SignalMessage) (t : Nat)
    (e : SignalMessage) (h : (t, e) ∈ (handleClose s (some c) m).2) :
    ∃ sess, s.GetSession m.Code = some sess ∧ sess.hasConn t := by
  unfold handleClose at h
  cases hg : s.GetSession m.Code with
  | none =>
    rw [hg] at h
    exact absurd h (List.not_mem_nil _)
  | some sess =>
    rw [hg] at h
    simp only [] at h
    by_cases hs : some c = sess.SenderConn
    · rw [if_pos hs] at h
      by_cases hn : sess.ReceiverConn ≠ none
      · rw [if_pos hn] at h
        exact ⟨sess, rfl, Or.inr (mem_sendMessage h).1⟩
      · rw [if_neg hn] at h
        exact absurd h (List.not_mem_nil _)
    · rw [if_neg hs] at h
      by_cases hn : sess.SenderConn ≠ none
      · rw [if_pos hn] at h
        exact ⟨sess, rfl, Or.inl (mem_sendMessage h).1⟩
      · rw [if_neg hn] at h
        exact absurd h (List.not_mem_nil _)

/-! ## The retry loop of CreateSession -/

/-- One iteration of the loop on a draw that collides. -/
theorem codeLoop_step_collides (s : Store) (rand : Nat → Except String Nat) (fuel i : Nat)
    (code : String) (n : Nat) (hr : rand i = .ok n)
    (hlive : (s.GetSession (sprintf06d (n + 100000))).isSome = true) :
    codeLoop s rand (fuel + 1) i code
      = codeLoop s rand fuel (i + 1) (sprintf06d (n + 100000)) := by
  unfold Store.GetSession at hlive
  rw [codeLoop, hr]
  simp only [generateCode, hlive, if_true]

/-- The loop stops at the first draw that does not collide: with an error
when the draw is an error, with the candidate when the candidate is free. -/
theorem codeLoop_first (s : Store) (rand : Nat → Except String Nat) (fuel i : Nat)
    (code : String) (j : Nat) (hj : j < fuel)
    (hpre : ∀ t, t < j → collides s (rand (i + t))) :
    (∀ err, rand (i + j) = .error err →
      codeLoop s rand fuel i code = .error ("failed to generate code: " ++ err)) ∧
    (∀ n, rand (i + j) = .ok n → s.GetSession (sprintf06d (n + 100000)) = none →
      codeLoop s rand fuel i code = .ok (sprintf06d (n + 100000))) := by
  induction j generalizing fuel i code with
  | zero =>
    obtain ⟨f, rfl⟩ : ∃ f, fuel = f + 1 := ⟨fuel - 1, by omega⟩
    constructor
    · intro err hr
      rw [Nat.add_zero] at hr
      rw [codeLoop, hr]
      rfl
    · intro n hr hfree
      rw [Nat.add_zero] at hr
      unfold Store.GetSession at hfree
      rw [codeLoop, hr]
      simp [generateCode, hfree]
  | succ j ih =>
    obtain ⟨f, rfl⟩ : ∃ f, fuel = f + 1 := ⟨fuel - 1, by omega⟩
    obtain ⟨n₀, hr₀, hlive₀⟩ := hpre 0 (Nat.succ_pos j)
    rw [Nat.add_zero] at hr₀
    rw [codeLoop_step_collides s rand f i code n₀ hr₀ hlive₀]
    have hpre' : ∀ t, t < j → collides s (rand (i + 1 + t)) := by
      intro t ht
      have := hpre (t + 1) (by omega)
      rw [show i + (t + 1) = i + 1 + t from by omega] at this
      exact this
    have := ih f (i + 1) (sprintf06d (n₀ + 100000)) (by omega) hpre'
    rw [show i + 1 + j = i + (j + 1) from by omega] at this
    exact this

/-- When every draw of the loop collides, the loop ends with the last
candidate. -/
theorem codeLoop_exhausted (s : Store) (rand : Nat → Except String Nat) (fuel i : Nat)
    (code : String) (hall : ∀ t, t < fuel + 1 → collides s (rand (i + t)))
    (n : Nat) (hlast : rand (i + fuel) = .ok n) :
    codeLoop s rand (fuel + 1) i code = .ok (sprintf06d (n + 100000)) := by
  induction fuel generalizing i code with
  | zero =>
    obtain ⟨n₀, hr₀, hlive₀⟩ := hall 0 (by omega)
    rw [Nat.add_zero] at hr₀ hlast
    rw [hlast] at hr₀
    rw [codeLoop_step_collides s rand 0 i code n hlast
      (by rw [Except.ok.inj hr₀]; exact hlive₀)]
    rfl
  | succ f ih =>
    obtain ⟨n₀, hr₀, hlive₀⟩ := hall 0 (by omega)
    rw [Nat.add_zero] at hr₀
    rw [codeLoop_step_collides s rand (f + 1) i code n₀ hr₀ hlive₀]
    apply ih
    · intro t ht
      have := hall (t + 1) (by omega)
      rw [show i + (t + 1) = i + 1 + t from by omega] at this
      exact this
    · rw [show i + 1 + f = i + (f + 1) from by omega]
      exact hlast

/-- The loop reads only the draws of its own iterations. -/
theorem codeLoop_congr (s : Store) (rand rand' : Nat → Except String Nat) (fuel i : Nat)
    (code : String) (h : ∀ t, t < fuel → rand' (i + t) = rand (i + t)) :
    codeLoop s rand' fuel i code = codeLoop s rand fuel i code := by
  induction fuel generalizing i code with
  | zero => rfl
  | succ f ih =>
    have h0 := h 0 (Nat.succ_pos f)
    rw [Nat.add_zero] at h0
    rw [codeLoop, codeLoop, h0]
    have hrec : ∀ c, codeLoop s rand' f (i + 1) c = codeLoop s rand f (i + 1) c := by
      intro c
      apply ih
      intro t ht
      have := h (t + 1) (by omega)
      rw [show i + (t + 1) = i + 1 + t from by omega] at this
      exact this
    cases generateCode (rand i) with
    | error err => rfl
    | ok c =>
      simp only [hrec]

/-! ## What the operations of the store leave in place -/

/-- The entries after a sweep are entries from before it. -/
theorem CleanupOldSessions_sublist (s : Store) (now maxAge : Int) :
    (s.CleanupOldSessions now maxAge).2.sessions.Sublist s.sessions := by
  unfold Store.CleanupOldSessions
  simp only []
  rw [cleanup_foldl]
  exact List.filter_sublist _

/-- A code that resolves after a sweep resolved to the same session before. -/
theorem CleanupOldSessions_frame (s : Store) (now maxAge : Int) (k : String) (x : Session)
    (h : (s.CleanupOldSessions now maxAge).2.GetSession k = some x) :
    s.GetSession k = some x := by
  unfold Store.CleanupOldSessions at h
  simp only [] at h
  rw [cleanup_foldl] at h
  unfold Store.GetSession at h ⊢
  rw [mapGet_filter_key s.sessions
    (fun key => !((s.sessions.filter
      (expiredAt (now + wrapInt64 (-maxAge)))).map Prod.fst).contains key) k] at h
  split at h
  · exact h
  · exact Option.noConfusion h

/-- A code that resolves after RemoveSession resolved to the same session
before. -/
theorem RemoveSession_frame (s : Store) (k₀ k : String) (x : Session)
    (h : (s.RemoveSession k₀).GetSession k = some x) : s.GetSession k = some x := by
  by_cases hk : k = k₀
  · rw [hk, GetSession_RemoveSession_self] at h
    exact Option.noConfusion h
  · rw [GetSession_RemoveSession_ne s k₀ k hk] at h
    exact h

/-- JoinSession changes at most the receiver of the session under its code,
and that only from unset to the joining connection. -/
theorem JoinSession_frame (s : Store) (k₀ : String) (conn : Option Nat) (k : String)
    (x x' : Session) (h : s.GetSession k = some x)
    (h' : (s.JoinSession k₀ conn).2.GetSession k = some x') :
    x' = x ∨ (k = k₀ ∧ x.ReceiverConn = none ∧ x' = { x with ReceiverConn := conn } ∧
      (s.JoinSession k₀ conn).1 = .ok x') := by
  rcases JoinSession_cases s k₀ conn with ⟨err, hj⟩ | ⟨sess, hg, hnone, hj⟩
  · rw [hj, h] at h'
    exact Or.inl (Option.some.inj h').symm
  · obtain ⟨h1, h2, h3⟩ := JoinSession_ok s k₀ conn sess hg hnone
    by_cases hk : k = k₀
    · subst hk
      rw [h] at hg
      have hx := Option.some.inj hg
      subst hx
      rw [h2] at h'
      have hx' := Option.some.inj h'
      exact Or.inr ⟨rfl, hnone, hx'.symm, by rw [h1, hx']⟩
    · rw [h3 k hk, h] at h'
      exact Or.inl (Option.some.inj h').symm

/-- CreateSession leaves the session under every code other than the one it
returns as it was. -/
theorem CreateSession_frame (s : Store) (rand : Nat → Except String Nat) (now : Int)
    (conn : Option Nat) (d : FileMetadata) (k : String)
    (hfresh : ∀ S, (s.CreateSession rand now conn d).1 = .ok S → S.Code ≠ k) :
    (s.CreateSession rand now conn d).2.GetSession k = s.GetSession k := by
  rcases CreateSession_cases s rand now conn d with ⟨err, hc⟩ | ⟨code, hc⟩
  · rw [hc]
  · rw [hc] at hfresh ⊢
    have hne : k ≠ code := fun e => hfresh _ rfl e.symm
    exact mapGet_mapSet_ne s.sessions code k _ hne

/-- Every registry reached by the operations of the store is a map whose
entries are stored under the code of their session. -/
theorem RegReach_wellFormed (s : Store) (h : RegReach s) : s.IsMap ∧ s.KeyedByCode := by
  induction h with
  | empty =>
    exact ⟨List.nodup_nil, fun e he => absurd he (List.not_mem_nil e)⟩
  | create s rand now conn d _ ih =>
    rcases CreateSession_cases s rand now conn d with ⟨err, hc⟩ | ⟨code, hc⟩
    · rw [hc]
      exact ih
    · rw [hc]
      refine ⟨IsMap_mapSet s code _ ih.1, ?_⟩
      intro e he
      rcases mem_mapSet he with he | he
      · rw [he]
      · exact ih.2 e he.1
  | join s k conn _ ih =>
    rcases JoinSession_cases s k conn with ⟨err, hj⟩ | ⟨sess, hg, _, hj⟩
    · rw [hj]
      exact ih
    · rw [hj]
      refine ⟨IsMap_map_update s k _ ih.1, ?_⟩
      intro e he
      obtain ⟨e₀, he₀, hee⟩ := List.mem_map.mp he
      by_cases hk : (e₀.1 == k) = true
      · rw [if_pos hk] at hee
        rw [← hee]
        show sess.Code = e₀.1
        have hk' : e₀.1 = k := by simpa using hk
        rw [hk']
        exact ih.2 (k, sess) (mem_of_mapGet s.sessions k sess hg)
      · rw [if_neg hk] at hee
        rw [← hee]
        exact ih.2 e₀ he₀
  | remove s k _ ih =>
    exact ⟨IsMap_RemoveSession s k ih.1, KeyedByCode_RemoveSession s k ih.2⟩
  | sweep s now maxAge _ ih =>
    have hsub := CleanupOldSessions_sublist s now maxAge
    exact ⟨List.Nodup.sublist (hsub.map Prod.fst) ih.1, fun e he => ih.2 e (hsub.subset he)⟩
  | reorder s s' _ hp ih =>
    exact ⟨IsMap_perm s s' hp ih.1, fun e he => ih.2 e (hp.mem_iff.mpr he)⟩

/-! ## The format of the codes -/

theorem digitsRev_small (fuel v : Nat) (hv : v < 10) : digitsRev (fuel + 1) v = [v] := by
  simp [digitsRev, hv]

theorem digitsRev_large (fuel v : Nat) (hv : 10 ≤ v) :
    digitsRev (fuel + 1) v = v % 10 :: digitsRev fuel (v / 10) := by
  have : ¬ v < 10 := by omega
  simp [digitsRev, this]

/-- The digits of a number of six digits. -/
theorem digitsRev_six (v : Nat) (hlo : 100000 ≤ v) (hhi : v < 1000000) :
    digitsRev (v + 1) v
      = [v % 10, v / 10 % 10, v / 100 % 10, v / 1000 % 10, v / 10000 % 10, v / 100000] := by
  obtain ⟨w, rfl⟩ : ∃ w, v = w + 5 := ⟨v - 5, by omega⟩
  rw [digitsRev_large _ _ (by omega), digitsRev_large _ _ (by omega),
    digitsRev_large _ _ (by omega), digitsRev_large _ _ (by omega),
    digitsRev_large _ _ (by omega), digitsRev_small _ _ (by omega)]
  simp only [Nat.div_div_eq_div_mul]

/-- The code of a number of six digits, digit by digit. -/
theorem sprintf06d_six (v : Nat) (hlo : 100000 ≤ v) (hhi : v < 1000000) :
    sprintf06d v
      = String.mk [digitChar (v / 100000), digitChar (v / 10000 % 10),
          digitChar (v / 1000 % 10), digitChar (v / 100 % 10), digitChar (v / 10 % 10),
          digitChar (v % 10)] := by
  unfold sprintf06d
  rw [digitsRev_six v hlo hhi]
  rfl

theorem nat_digitChar_eq (d : Nat) (hd : d < 10) : Nat.digitChar d = digitChar d := by
  interval_cases d <;> rfl

theorem digitChar_isDigit (d : Nat) (hd : d < 10) : (digitChar d).isDigit = true := by
  interval_cases d <;> rfl

theorem digitChar_toNat (d : Nat) (hd : d < 10) : (digitChar d).toNat - 48 = d := by
  interval_cases d <;> rfl

theorem digitChar_inj (d d' : Nat) (hd : d < 10) (hd' : d' < 10)
    (h : digitChar d = digitChar d') : d = d' := by
  have h1 := digitChar_toNat d hd
  have h2 := digitChar_toNat d' hd'
  rw [h] at h1
  omega

/-- On a number of six digits the verb `%06d` pads nothing: the code is the
decimal numeral of the number. -/
theorem sprintf06d_eq_repr (v : Nat) (hlo : 100000 ≤ v) (hhi : v < 1000000) :
    sprintf06d v = Nat.repr v := by
  rw [sprintf06d_six v hlo hhi]
  obtain ⟨w, rfl⟩ : ∃ w, v = w + 5 := ⟨v - 5, by omega⟩
  unfold Nat.repr Nat.toDigits
  rw [Nat.toDigitsCore, Nat.toDigitsCore, Nat.toDigitsCore, Nat.toDigitsCore,
    Nat.toDigitsCore, Nat.toDigitsCore]
  rw [if_neg (by omega), if_neg (by omega), if_neg (by omega), if_neg (by omega),
    if_neg (by omega), if_pos (by omega)]
  rw [nat_digitChar_eq _ (Nat.mod_lt _ (by decide)), nat_digitChar_eq _ (Nat.mod_lt _ (by decide)),
    nat_digitChar_eq _ (Nat.mod_lt _ (by decide)), nat_digitChar_eq _ (Nat.mod_lt _ (by decide)),
    nat_digitChar_eq _ (Nat.mod_lt _ (by decide)), nat_digitChar_eq _ (Nat.mod_lt _ (by decide))]
  have h5 : (w + 5) / 10 / 10 / 10 / 10 / 10 % 10 = (w + 5) / 100000 := by omega
  have h4 : (w + 5) / 10 / 10 / 10 / 10 % 10 = (w + 5) / 10000 % 10 := by omega
  have h3 : (w + 5) / 10 / 10 / 10 % 10 = (w + 5) / 1000 % 10 := by omega
  have h2 : (w + 5) / 10 / 10 % 10 = (w + 5) / 100 % 10 := by omega
  rw [h5, h4, h3, h2]
  rfl

/-- The number denoted by the code of a number of six digits is that number. -/
theorem decimalValue_sprintf06d (v : Nat) (hlo : 100000 ≤ v) (hhi : v < 1000000) :
    decimalValue (sprintf06d v) = v := by
  rw [sprintf06d_six v hlo hhi]
  unfold decimalValue
  simp only [List.foldl_cons, List.foldl_nil]
  rw [digitChar_toNat _ (by omega), digitChar_toNat _ (by omega), digitChar_toNat _ (by omega),
    digitChar_toNat _ (by omega), digitChar_toNat _ (by omega), digitChar_toNat _ (by omega)]
  omega

/-- The decimal numeral of a number of six digits has six characters, all of
them ASCII digits. -/
theorem repr_six_digits (v : Nat) (hlo : 100000 ≤ v) (hhi : v < 1000000) :
    (Nat.repr v).length = 6 ∧ ∀ ch ∈ (Nat.repr v).data, ch.isDigit = true := by
  rw [← sprintf06d_eq_repr v hlo hhi, sprintf06d_six v hlo hhi]
  refine ⟨rfl, ?_⟩
  intro ch hch
  simp only [List.mem_cons, List.mem_singleton, List.not_mem_nil, or_false] at hch
  rcases hch with h | h | h | h | h | h <;> rw [h] <;> apply digitChar_isDigit <;> omega

/-! ## The end-to-end trace -/

/-- On the empty registry the first candidate is free: a create envelope whose
payload decodes to `d` stores one session and answers with its code. -/
theorem create_on_empty (J : Json) (rand : Nat → Except String Nat) (now : Int) (S n : Nat)
    (d : FileMetadata) (mc : SignalMessage) (hkind : mc.Type_ = TypeCreate)
    (hdec : J.unmarshal mc.Payload = some d) (hrand : rand 0 = .ok n) :
    routeMessage J rand now NewStore (some S) mc
      = ({ sessions := [(sprintf06d (n + 100000),
            { Code := sprintf06d (n + 100000), SenderConn := some S, ReceiverConn := none,
              FileMetadata := d, CreatedAt := now })] },
         [(S, { Type_ := TypeCreated, Code := sprintf06d (n + 100000),
                Payload := some "\x7b\x7d", Error := "" })]) := by
  rw [routeMessage_create J rand now NewStore _ mc hkind]
  unfold handleCreate
  rw [hdec]
  have hloop := (codeLoop_first NewStore rand 10 0 "" 0 (by omega)
    (fun t ht => absurd ht (Nat.not_lt_zero t))).2 n hrand rfl
  have hcreate : NewStore.CreateSession rand now (some S) d
      = (.ok { Code := sprintf06d (n + 100000), SenderConn := some S, ReceiverConn := none,
               FileMetadata := d, CreatedAt := now },
         { sessions := [(sprintf06d (n + 100000),
            { Code := sprintf06d (n + 100000), SenderConn := some S, ReceiverConn := none,
              FileMetadata := d, CreatedAt := now })] }) := by
    unfold Store.CreateSession
    rw [hloop]
    rfl
  simp only [hcreate]
  rfl

/-- The rest of the trace, from the registry that holds the one session of `S`
under a non-empty code `k`: join by `R`, offer by `S`, close by `R`. -/
theorem trace_after_create (J : Json) (r₂ r₃ r₄ : Nat → Except String Nat)
    (t₁ t₂ t₃ t₄ : Int) (S R : Nat) (hSR : S ≠ R) (k : String) (hk : k ≠ "")
    (d : FileMetadata) (mj mo ml : SignalMessage)
    (hj : mj.Type_ = TypeJoin) (hjc : mj.Code = k)
    (ho : mo.Type_ = TypeOffer) (hoc : mo.Code = k)
    (hl : ml.Type_ = TypeClose) (hlc : ml.Code = k) :
    routeMessage J r₂ t₂
        { sessions := [(k, { Code := k, SenderConn := some S, ReceiverConn := none,
                             FileMetadata := d, CreatedAt := t₁ })] } (some R) mj
      = ({ sessions := [(k, { Code := k, SenderConn := some S, ReceiverConn := some R,
                              FileMetadata := d, CreatedAt := t₁ })] },
         [(R, { Type_ := TypeJoined, Code := k, Payload := some (J.marshal d), Error := "" }),
          (S, { Type_ := TypeReceiverJoined, Code := k, Payload := some "\x7b\x7d",
                Error := "" })]) ∧
    routeMessage J r₃ t₃
        { sessions := [(k, { Code := k, SenderConn := some S, ReceiverConn := some R,
                             FileMetadata := d, CreatedAt := t₁ })] } (some S) mo
      = ({ sessions := [(k, { Code := k, SenderConn := some S, ReceiverConn := some R,
                              FileMetadata := d, CreatedAt := t₁ })] },
         [(R, mo)]) ∧
    routeMessage J r₄ t₄
        { sessions := [(k, { Code := k, SenderConn := some S, ReceiverConn := some R,
                             FileMetadata := d, CreatedAt := t₁ })] } (some R) ml
      = (NewStore, [(S, { Type_ := TypeClose, Code := k, Payload := none, Error := "" })]) := by
  have hRS : ¬ R = S := fun e => hSR e.symm
  refine ⟨?_, ?_, ?_⟩
  · rw [routeMessage_join J r₂ t₂ _ _ mj hj]
    unfold handleJoin
    rw [hjc]
    have hb : ¬ ((k == "") = true) := by simpa using hk
    simp only [hb]
    simp [Store.JoinSession, mapGet_cons, mapGet_nil, sendMessage]
  · rw [routeMessage_relay J r₃ t₃ _ _ mo (Or.inl ho)]
    unfold handleRelay
    rw [hoc]
    simp [Store.GetSession, mapGet_cons, sendMessage]
  · rw [routeMessage_close J r₄ t₄ _ _ ml hl]
    unfold handleClose
    rw [hlc]
    simp [Store.GetSession, Store.RemoveSession, mapGet_cons, mapDelete_cons, mapDelete,
      sendMessage, hRS, NewStore]

/-! ## Claims -/

/-- C1, at a failing input: the registry holds a joined session under code
`100000` and each of the ten draws of the random source is `0`, so each
candidate is `100000`. CreateSession succeeds with the code `100000`, which
was live before the call, and the session that was live under that code is no
longer what GetSession returns. -/
theorem C1_createSession_reuses_live_code :
    joinedStore.GetSession "100000" = some (joinedSession "100000") ∧
    (joinedStore.CreateSession (constRand 0) 5 (some 3) sampleMetadata).1
      = .ok { Code := "100000", SenderConn := some 3, ReceiverConn := none,
              FileMetadata := sampleMetadata, CreatedAt := 5 } ∧
    (joinedStore.CreateSession (constRand 0) 5 (some 3) sampleMetadata).2.GetSession "100000"
      ≠ some (joinedSession "100000") :=
  ⟨by decide, rfl, by decide⟩

/-- C2, at a failing input: each of the ten candidates drawn collides with the
live code `100000`, and CreateSession returns a session and no error, and
replaces the entry of the registry. -/
theorem C2_createSession_no_error_on_exhaustion :
    (∀ i, i < 10 → generateCode (constRand 0 i) = .ok "100000") ∧
    (joinedStore.GetSession "100000").isSome = true ∧
    joinedStore.CreateSession (constRand 0) 5 (some 3) sampleMetadata
      = (.ok { Code := "100000", SenderConn := some 3, ReceiverConn := none,
               FileMetadata := sampleMetadata, CreatedAt := 5 },
         { sessions := [("100000", { Code := "100000", SenderConn := some 3,
                                     ReceiverConn := none, FileMetadata := sampleMetadata,
                                     CreatedAt := 5 })] }) ∧
    (joinedStore.CreateSession (constRand 0) 5 (some 3) sampleMetadata).2 ≠ joinedStore :=
  ⟨fun _ _ => rfl, by decide, rfl, by decide⟩

/-- C3, as stated, fails: connection `1` sends create twice and is then the
sender of the two live sessions `100000` and `100001`. -/
theorem C3_counterexample :
    Reachable sampleJson afterTwoCreates ∧ ¬ afterTwoCreates.connInAtMostOneSession := by
  constructor
  · exact Reach.route _ 1 createMsg (constRand 1) 0
      (Reach.route _ 1 createMsg (constRand 0) 0 Reach.empty trivial) trivial
  · intro h
    have h' := h 1 "100000" "100001" (openSession "100000") (openSession "100001")
      (by decide) (by decide) (by decide) (by decide)
    exact absurd h' (by decide)

/-- C3, amended: in every registry state reached from the empty registry by
routed messages and disconnect cleanups in which a connection sends create or
join only while it is in no slot of a live session, each connection occurs in
at most one live session, as sender or as receiver. -/
theorem C3_one_session_per_connection (J : Json) (s : Store)
    (h : Reach J oneSessionPerConn s) : s.connInAtMostOneSession := by
  intro c k₁ k₂ s₁ s₂ h₁ h₂ hc₁ hc₂
  exact Reach_connUnique J s h c (k₁, s₁) (mem_of_mapGet s.sessions k₁ s₁ h₁)
    (k₂, s₂) (mem_of_mapGet s.sessions k₂ s₂ h₂) hc₁ hc₂

theorem C3_one_session_per_connection_witness :
    Reach sampleJson oneSessionPerConn afterJoin ∧ afterJoin.connInAtMostOneSession :=
  ⟨Reach.route _ 2 (joinMsg "100000") (constRand 0) 0
      (Reach.route _ 1 createMsg (constRand 0) 0 Reach.empty (fun _ => by decide))
      (fun _ => by decide),
   C3_one_session_per_connection sampleJson afterJoin
     (Reach.route _ 2 (joinMsg "100000") (constRand 0) 0
       (Reach.route _ 1 createMsg (constRand 0) 0 Reach.empty (fun _ => by decide))
       (fun _ => by decide))⟩

/-- C4: on a live session under code `k` without receiver, `JoinSession(k, c)`
followed by `JoinSession(k, c2)` with `c2 ≠ c`: the first call succeeds, the
second fails with the error "session already has a receiver" and changes
nothing, and the session stored under `k` still has receiver `c`. -/
theorem C4_second_join_fails (s : Store) (k : String) (sess : Session) (c c2 : Nat)
    (hlive : s.GetSession k = some sess) (hnone : sess.ReceiverConn = none)
    (_hne : c2 ≠ c) :
    (s.JoinSession k (some c)).1 = .ok { sess with ReceiverConn := some c } ∧
    ((s.JoinSession k (some c)).2.JoinSession k (some c2)).1
      = .error "session already has a receiver" ∧
    ((s.JoinSession k (some c)).2.JoinSession k (some c2)).2 = (s.JoinSession k (some c)).2 ∧
    ((s.JoinSession k (some c)).2.JoinSession k (some c2)).2.GetSession k
      = some { sess with ReceiverConn := some c } := by
  obtain ⟨h1, h2, _⟩ := JoinSession_ok s k (some c) sess hlive hnone
  have h3 := JoinSession_has_receiver (s.JoinSession k (some c)).2 k (some c2)
    { sess with ReceiverConn := some c } h2 (by simp)
  refine ⟨h1, ?_, ?_, ?_⟩
  · rw [h3]
  · rw [h3]
  · rw [h3]
    exact h2

theorem C4_second_join_fails_witness :
    openStore.GetSession "100000" = some (openSession "100000") ∧
    (openSession "100000").ReceiverConn = none ∧ (3 : Nat) ≠ 2 ∧
    ((openStore.JoinSession "100000" (some 2)).1
        = .ok { openSession "100000" with ReceiverConn := some 2 } ∧
      ((openStore.JoinSession "100000" (some 2)).2.JoinSession "100000" (some 3)).1
        = .error "session already has a receiver" ∧
      ((openStore.JoinSession "100000" (some 2)).2.JoinSession "100000" (some 3)).2
        = (openStore.JoinSession "100000" (some 2)).2 ∧
      ((openStore.JoinSession "100000" (some 2)).2.JoinSession "100000" (some 3)).2.GetSession
          "100000"
        = some { openSession "100000" with ReceiverConn := some 2 }) :=
  ⟨by decide, by decide, by decide,
   C4_second_join_fails openStore "100000" (openSession "100000") 2 3
     (by decide) (by decide) (by decide)⟩

/-- C5: with a joined session under code `k` (sender `A`, receiver `B`) and an
envelope `m` of kind offer, answer or ice-candidate with code `k`: routing `m`
from `A` sends exactly `m` to `B`, routing `m` from `B` sends exactly `m` to `A`,
and the registry is unchanged in both cases. -/
theorem C5_relay_symmetry (J : Json) (rand : Nat → Except String Nat) (now : Int)
    (s : Store) (k : String) (sess : Session) (A B : Nat) (m : SignalMessage)
    (hlive : s.GetSession k = some sess)
    (hA : sess.SenderConn = some A) (hB : sess.ReceiverConn = some B)
    (hkind : m.Type_ = TypeOffer ∨ m.Type_ = TypeAnswer ∨ m.Type_ = TypeIceCandidate)
    (hcode : m.Code = k) :
    routeMessage J rand now s (some A) m = (s, [(B, m)]) ∧
    routeMessage J rand now s (some B) m = (s, [(A, m)]) := by
  subst hcode
  rw [routeMessage_relay J rand now s _ m hkind, routeMessage_relay J rand now s _ m hkind]
  unfold handleRelay
  rw [hlive]
  constructor
  · simp [hA, hB, sendMessage]
  · by_cases hAB : B = A
    · simp [hA, hB, hAB, sendMessage]
    · simp [hA, hB, hAB, sendMessage]

theorem C5_relay_symmetry_witness :
    joinedStore.GetSession "100000" = some (joinedSession "100000") ∧
    (joinedSession "100000").SenderConn = some 1 ∧
    (joinedSession "100000").ReceiverConn = some 2 ∧
    routeMessage sampleJson (constRand 0) 0 joinedStore (some 1)
        { Type_ := "offer", Code := "100000", Payload := some "sdp", Error := "" }
      = (joinedStore,
          [(2, { Type_ := "offer", Code := "100000", Payload := some "sdp", Error := "" })]) ∧
    routeMessage sampleJson (constRand 0) 0 joinedStore (some 2)
        { Type_ := "offer", Code := "100000", Payload := some "sdp", Error := "" }
      = (joinedStore,
          [(1, { Type_ := "offer", Code := "100000", Payload := some "sdp", Error := "" })]) :=
  ⟨by decide, by decide, by decide,
   C5_relay_symmetry sampleJson (constRand 0) 0 joinedStore "100000" (joinedSession "100000")
     1 2 { Type_ := "offer", Code := "100000", Payload := some "sdp", Error := "" }
     (by decide) (by decide) (by decide) (Or.inl rfl) rfl⟩

/-- C6, as stated, fails: with sender `1` and no receiver under code `100000`,
an offer routed from connection `2` is forwarded to connection `1` and no
error envelope is sent to `2`. -/
theorem C6_counterexample :
    openStore.GetSession "100000" = some (openSession "100000") ∧
    (openSession "100000").ReceiverConn = none ∧
    routeMessage sampleJson (constRand 0) 0 openStore (some 2)
        { Type_ := "offer", Code := "100000", Payload := some "sdp", Error := "" }
      = (openStore,
          [(1, { Type_ := "offer", Code := "100000", Payload := some "sdp", Error := "" })]) ∧
    routeMessage sampleJson (constRand 0) 0 openStore (some 2)
        { Type_ := "offer", Code := "100000", Payload := some "sdp", Error := "" }
      ≠ (openStore, [(2, NewErrorMessage "100000" "Peer not connected")]) := by
  decide

/-- C6, amended: with a live session under code `k` whose receiver is unset
and an envelope `m` of kind offer, answer or ice-candidate with code `k`:
routed from the sender of the session, `m` is forwarded to nobody and the
sender gets exactly one error envelope with code `k` and text
"Peer not connected"; routed from any other connection, `m` is forwarded
unmodified to the sender of the session. The registry is unchanged. -/
theorem C6_relay_without_receiver (J : Json) (rand : Nat → Except String Nat) (now : Int)
    (s : Store) (k : String) (sess : Session) (a c : Nat) (m : SignalMessage)
    (hlive : s.GetSession k = some sess)
    (hsender : sess.SenderConn = some a) (hnone : sess.ReceiverConn = none)
    (hkind : m.Type_ = TypeOffer ∨ m.Type_ = TypeAnswer ∨ m.Type_ = TypeIceCandidate)
    (hcode : m.Code = k) :
    routeMessage J rand now s (some a) m
      = (s, [(a, { Type_ := TypeError, Code := k, Payload := none,
                   Error := "Peer not connected" })]) ∧
    (c ≠ a → routeMessage J rand now s (some c) m = (s, [(a, m)])) := by
  subst hcode
  rw [routeMessage_relay J rand now s _ m hkind, routeMessage_relay J rand now s _ m hkind]
  unfold handleRelay
  rw [hlive]
  constructor
  · simp [hsender, hnone, sendError, sendMessage, NewErrorMessage]
  · intro hca
    simp [hsender, hca, sendMessage]

theorem C6_relay_without_receiver_witness :
    openStore.GetSession "100000" = some (openSession "100000") ∧
    (openSession "100000").SenderConn = some 1 ∧
    (openSession "100000").ReceiverConn = none ∧
    (routeMessage sampleJson (constRand 0) 0 openStore (some 1)
        { Type_ := "answer", Code := "100000", Payload := some "sdp", Error := "" }
      = (openStore, [(1, { Type_ := TypeError, Code := "100000", Payload := none,
                           Error := "Peer not connected" })]) ∧
     ((2 : Nat) ≠ 1 →
       routeMessage sampleJson (constRand 0) 0 openStore (some 2)
          { Type_ := "answer", Code := "100000", Payload := some "sdp", Error := "" }
        = (openStore,
            [(1, { Type_ := "answer", Code := "100000", Payload := some "sdp",
                   Error := "" })]))) :=
  ⟨by decide, by decide, by decide,
   C6_relay_without_receiver sampleJson (constRand 0) 0 openStore "100000"
     (openSession "100000") 1 2
     { Type_ := "answer", Code := "100000", Payload := some "sdp", Error := "" }
     (by decide) (by decide) (by decide) (Or.inr (Or.inl rfl)) rfl⟩

/-- C7, as stated, fails: connection `1` creates the session `100000`,
connection `2` joins it, connection `1` creates the session `100001`, and the
map enumerates `100001` first. The disconnect cleanup of connection `1` removes
`100001`, sends nothing, and the joined session `100000` stays live. -/
theorem C7_counterexample :
    Reachable sampleJson afterJoinAndCreate ∧
    afterJoinAndCreate.GetSession "100000" = some (joinedSession "100000") ∧
    (handleDisconnect afterJoinAndCreate (some 1)).2 = [] ∧
    (handleDisconnect afterJoinAndCreate (some 1)).1.GetSession "100000"
      = some (joinedSession "100000") := by
  refine ⟨?_, by decide, by decide, by decide⟩
  exact Reach.route _ 1 createMsg (constRand 1) 0
    (Reach.route _ 2 (joinMsg "100000") (constRand 0) 0
      (Reach.route _ 1 createMsg (constRand 0) 0 Reach.empty trivial) trivial) trivial

/-- C7, amended: in a registry state reachable through the router that holds a
joined session under code `k` with sender `A` and receiver `B`: when `A` is in
no slot of a session under another code, the disconnect cleanup of `A` removes
session `k`, so that GetSession on `k` is absent afterwards, and sends exactly
one envelope, to `B`, of kind close with code `k` and error text
"Peer disconnected"; and likewise for `B`, with the envelope sent to `A`. -/
theorem C7_disconnect_removes_session (J : Json) (s : Store) (k : String) (sess : Session)
    (A B : Nat) (hreach : Reachable J s) (hlive : s.GetSession k = some sess)
    (hA : sess.SenderConn = some A) (hB : sess.ReceiverConn = some B) :
    ((∀ k' s', s.GetSession k' = some s' → s'.hasConn A → k' = k) →
      handleDisconnect s (some A)
        = (s.RemoveSession k,
           [(B, { Type_ := TypeClose, Code := k, Payload := none,
                  Error := "Peer disconnected" })]) ∧
      (handleDisconnect s (some A)).1.GetSession k = none) ∧
    ((∀ k' s', s.GetSession k' = some s' → s'.hasConn B → k' = k) →
      handleDisconnect s (some B)
        = (s.RemoveSession k,
           [(A, { Type_ := TypeClose, Code := k, Payload := none,
                  Error := "Peer disconnected" })]) ∧
      (handleDisconnect s (some B)).1.GetSession k = none) := by
  have hwf := Reach_wellFormed J anyMessage s hreach
  have hcode : sess.Code = k := hwf.2 (k, sess) (mem_of_mapGet s.sessions k sess hlive)
  constructor
  · intro huniq
    have hfind := GetSessionByConnection_unique s hwf.1 k sess A hlive (Or.inl hA) huniq
    have heq : handleDisconnect s (some A)
        = (s.RemoveSession k,
           [(B, { Type_ := TypeClose, Code := k, Payload := none,
                  Error := "Peer disconnected" })]) := by
      unfold handleDisconnect
      rw [hfind]
      simp [hA, hB, hcode, sendMessage]
    rw [heq]
    exact ⟨rfl, GetSession_RemoveSession_self s k⟩
  · intro huniq
    have hfind := GetSessionByConnection_unique s hwf.1 k sess B hlive (Or.inr hB) huniq
    have heq : handleDisconnect s (some B)
        = (s.RemoveSession k,
           [(A, { Type_ := TypeClose, Code := k, Payload := none,
                  Error := "Peer disconnected" })]) := by
      unfold handleDisconnect
      rw [hfind]
      by_cases hBA : B = A
      · simp [hA, hB, hcode, hBA, sendMessage]
      · simp [hA, hB, hcode, hBA, sendMessage]
    rw [heq]
    exact ⟨rfl, GetSession_RemoveSession_self s k⟩

theorem C7_disconnect_removes_session_witness :
    Reachable sampleJson afterJoin ∧
    afterJoin.GetSession "100000" = some (joinedSession "100000") ∧
    (joinedSession "100000").SenderConn = some 1 ∧
    (joinedSession "100000").ReceiverConn = some 2 ∧
    handleDisconnect afterJoin (some 1)
      = (afterJoin.RemoveSession "100000",
         [(2, { Type_ := TypeClose, Code := "100000", Payload := none,
                Error := "Peer disconnected" })]) ∧
    (handleDisconnect afterJoin (some 1)).1.GetSession "100000" = none :=
  ⟨Reach.route _ 2 (joinMsg "100000") (constRand 0) 0
      (Reach.route _ 1 createMsg (constRand 0) 0 Reach.empty trivial) trivial,
   by decide, by decide, by decide,
   (C7_disconnect_removes_session sampleJson afterJoin "100000" (joinedSession "100000") 1 2
      (Reach.route _ 2 (joinMsg "100000") (constRand 0) 0
        (Reach.route _ 1 createMsg (constRand 0) 0 Reach.empty trivial) trivial)
      (by decide) (by decide) (by decide)).1
     (fun k' s' h _ => by
       have hs : afterJoin.sessions = [("100000", joinedSession "100000")] := by decide
       have hmem := mem_of_mapGet afterJoin.sessions k' s' h
       rw [hs, List.mem_singleton] at hmem
       exact congrArg Prod.fst hmem)⟩

/-- C8, as stated, fails at the least `int64` duration: its negation is itself,
so the cutoff lies `2 ^ 63` nanoseconds before `now` and not after it. The
session was created before `now - maxAge`, and the sweep keeps it and returns
zero. -/
theorem C8_counterexample :
    sweepStore.IsMap ∧
    sweepStore.GetSession "100000"
      = some { Code := "100000", SenderConn := some 1, ReceiverConn := none,
               FileMetadata := sampleMetadata, CreatedAt := 1799999999000000000 } ∧
    (1799999999000000000 : Int) < 1800000000000000000 - (-9223372036854775808) ∧
    sweepStore.CleanupOldSessions 1800000000000000000 (-9223372036854775808)
      = (0, sweepStore) := by
  decide

/-- C8, amended: for every registry, instant `now` and duration `maxAge` other
than the least `int64` value, CleanupOldSessions removes exactly the sessions
created strictly before `now - maxAge` (one created at the cutoff is kept),
leaves every other session retrievable unchanged, adds no session, and returns
the number of sessions it removed. -/
theorem C8_sweep_removes_exactly_expired (s : Store) (hmap : s.IsMap) (now maxAge : Int)
    (hlo : -2 ^ 63 < maxAge) (hhi : maxAge < 2 ^ 63) :
    (∀ k x, s.GetSession k = some x → x.CreatedAt < now - maxAge →
      (s.CleanupOldSessions now maxAge).2.GetSession k = none) ∧
    (∀ k x, s.GetSession k = some x → ¬ x.CreatedAt < now - maxAge →
      (s.CleanupOldSessions now maxAge).2.GetSession k = some x) ∧
    (∀ k, s.GetSession k = none →
      (s.CleanupOldSessions now maxAge).2.GetSession k = none) ∧
    (s.CleanupOldSessions now maxAge).1
      = (s.sessions.filter (fun e => decide (e.2.CreatedAt < now - maxAge))).length ∧
    (s.CleanupOldSessions now maxAge).1 + (s.CleanupOldSessions now maxAge).2.sessions.length
      = s.sessions.length := by
  have hw : now + wrapInt64 (-maxAge) = now - maxAge := by
    rw [wrapInt64_of_range (-maxAge) (by omega) (by omega)]
    omega
  rw [CleanupOldSessions_eq s hmap now maxAge, hw]
  have hget : ∀ k x, s.GetSession k = some x →
      ({ sessions := s.sessions.filter (fun e => !(expiredAt (now - maxAge) e)) } :
        Store).GetSession k = if x.CreatedAt < now - maxAge then none else some x := by
    intro k x hk
    unfold Store.GetSession at hk ⊢
    have hmem := mem_of_mapGet s.sessions k x hk
    by_cases hexp : x.CreatedAt < now - maxAge
    · rw [if_pos hexp]
      cases hres : mapGet (s.sessions.filter (fun e => !(expiredAt (now - maxAge) e))) k with
      | none => rfl
      | some y =>
        have hy := List.mem_filter.mp (mem_of_mapGet _ k y hres)
        have hyx := mapGet_of_mem s.sessions hmap k y hy.1
        rw [hk] at hyx
        injection hyx with hyx
        subst hyx
        simp [expiredAt, hexp] at hy
    · rw [if_neg hexp]
      apply mapGet_of_mem
      · exact (List.Nodup.sublist ((List.filter_sublist _).map Prod.fst) hmap)
      · exact List.mem_filter.mpr ⟨hmem, by simp [expiredAt, hexp]⟩
  refine ⟨?_, ?_, ?_, ?_, ?_⟩
  · intro k x hk hexp
    rw [hget k x hk, if_pos hexp]
  · intro k x hk hexp
    rw [hget k x hk, if_neg hexp]
  · intro k hk
    unfold Store.GetSession at hk ⊢
    cases hres : mapGet (s.sessions.filter (fun e => !(expiredAt (now - maxAge) e))) k with
    | none => rfl
    | some y =>
      have hy := List.mem_filter.mp (mem_of_mapGet _ k y hres)
      rw [mapGet_of_mem s.sessions hmap k y hy.1] at hk
      exact Option.noConfusion hk
  · rfl
  · show (s.sessions.filter (expiredAt (now - maxAge))).length
        + (s.sessions.filter (fun e => !(expiredAt (now - maxAge) e))).length
      = s.sessions.length
    induction s.sessions with
    | nil => rfl
    | cons e l ih =>
      cases he : expiredAt (now - maxAge) e
      · rw [List.filter_cons_of_neg (by simp [he]), List.filter_cons_of_pos (by simp [he])]
        simp only [List.length_cons]
        omega
      · rw [List.filter_cons_of_pos he, List.filter_cons_of_neg (by simp [he])]
        simp only [List.length_cons]
        omega

theorem C8_sweep_removes_exactly_expired_witness :
    threeStore.IsMap ∧ (-2 ^ 63 : Int) < 30 ∧ (30 : Int) < 2 ^ 63 ∧
    (threeStore.CleanupOldSessions 50 30).2.GetSession "100000" = none ∧
    (threeStore.CleanupOldSessions 50 30).2.GetSession "100001"
      = some { openSession "100001" with CreatedAt := 20 } ∧
    (threeStore.CleanupOldSessions 50 30).1 + (threeStore.CleanupOldSessions 50 30).2.sessions.length
      = threeStore.sessions.length ∧
    (threeStore.CleanupOldSessions 50 30).1 = 1 :=
  ⟨by decide, by decide, by decide,
   (C8_sweep_removes_exactly_expired threeStore (by decide) 50 30 (by decide) (by decide)).1
     "100000" { openSession "100000" with CreatedAt := 10 } (by decide) (by decide),
   (C8_sweep_removes_exactly_expired threeStore (by decide) 50 30 (by decide) (by decide)).2.1
     "100001" { openSession "100001" with CreatedAt := 20 } (by decide) (by decide),
   (C8_sweep_removes_exactly_expired threeStore (by decide) 50 30 (by decide) (by decide)).2.2.2.2,
   by decide⟩

/-- C9: when `CreateSession(c, d)` succeeds and returns the session `S`, an
immediately following `GetSession(S.Code)` returns that same `S`; its sender is
`c`, its file descriptor is `d` and its receiver is unset. -/
theorem C9_getSession_after_createSession (s : Store) (rand : Nat → Except String Nat)
    (now : Int) (c : Nat) (d : FileMetadata) (S : Session)
    (h : (s.CreateSession rand now (some c) d).1 = .ok S) :
    (s.CreateSession rand now (some c) d).2.GetSession S.Code = some S ∧
    S.SenderConn = some c ∧ S.FileMetadata = d ∧ S.ReceiverConn = none := by
  obtain ⟨hS, hstore⟩ := CreateSession_ok s rand now (some c) d S h
  refine ⟨?_, ?_, ?_, ?_⟩
  · rw [hstore]
    exact mapGet_mapSet_self s.sessions S.Code S
  · rw [hS]
  · rw [hS]
  · rw [hS]

theorem C9_getSession_after_createSession_witness :
    (NewStore.CreateSession (constRand 23456) 7 (some 1) sampleMetadata).1 = .ok firstSession ∧
    (NewStore.CreateSession (constRand 23456) 7 (some 1) sampleMetadata).2.GetSession
        firstSession.Code = some firstSession ∧
    firstSession.SenderConn = some 1 ∧ firstSession.FileMetadata = sampleMetadata ∧
    firstSession.ReceiverConn = none :=
  ⟨rfl,
   C9_getSession_after_createSession NewStore (constRand 23456) 7 1 sampleMetadata
     firstSession rfl⟩

/-- C10: a close envelope `m` routed from connection `c`. If no session is
live under its code, nothing is sent and the registry is unchanged. If the
session `sess` is live under its code, then afterwards the code is absent,
every other code resolves as before, and what is sent is: nothing when the
other party (the receiver if `c` is the sender, otherwise the sender) is unset,
and otherwise exactly one close envelope to that party, with the code of `m`,
no payload and no error text. -/
theorem C10_close (J : Json) (rand : Nat → Except String Nat) (now : Int)
    (s : Store) (c : Nat) (m : SignalMessage) (hkind : m.Type_ = TypeClose) :
    (s.GetSession m.Code = none → routeMessage J rand now s (some c) m = (s, [])) ∧
    (∀ sess, s.GetSession m.Code = some sess →
      (routeMessage J rand now s (some c) m).1.GetSession m.Code = none ∧
      (∀ k', k' ≠ m.Code →
        (routeMessage J rand now s (some c) m).1.GetSession k' = s.GetSession k') ∧
      (routeMessage J rand now s (some c) m).2 =
        match (if sess.SenderConn = some c then sess.ReceiverConn else sess.SenderConn) with
        | none => []
        | some t => [(t, { Type_ := TypeClose, Code := m.Code, Payload := none,
                           Error := "" })]) := by
  rw [routeMessage_close J rand now s _ m hkind]
  unfold handleClose
  constructor
  · intro h
    rw [h]
  · intro sess h
    rw [h]
    refine ⟨GetSession_RemoveSession_self s m.Code,
      fun k' hne => GetSession_RemoveSession_ne s m.Code k' hne, ?_⟩
    have hswap : (some c = sess.SenderConn) = (sess.SenderConn = some c) :=
      propext ⟨Eq.symm, Eq.symm⟩
    simp only [hswap]
    cases ht : (if sess.SenderConn = some c then sess.ReceiverConn else sess.SenderConn) with
    | none => simp
    | some t => simp [sendMessage]

theorem C10_close_witness :
    ({ Type_ := "close", Code := "100000", Payload := none, Error := "" } :
      SignalMessage).Type_ = TypeClose ∧
    joinedStore.GetSession "100000" = some (joinedSession "100000") ∧
    (routeMessage sampleJson (constRand 0) 0 joinedStore (some 2)
        { Type_ := "close", Code := "100000", Payload := none, Error := "" }).1.GetSession
        "100000" = none ∧
    (routeMessage sampleJson (constRand 0) 0 joinedStore (some 2)
        { Type_ := "close", Code := "100000", Payload := none, Error := "" }).2
      = [(1, { Type_ := "close", Code := "100000", Payload := none, Error := "" })] :=
  ⟨rfl, by decide,
   ((C10_close sampleJson (constRand 0) 0 joinedStore 2
      { Type_ := "close", Code := "100000", Payload := none, Error := "" } rfl).2
      (joinedSession "100000") (by decide)).1,
   ((C10_close sampleJson (constRand 0) 0 joinedStore 2
      { Type_ := "close", Code := "100000", Payload := none, Error := "" } rfl).2
      (joinedSession "100000") (by decide)).2.2⟩

/-- C11, at a failing input: the registry holds under code `100000` a session
with sender `1` and receiver `2` created at instant `0`, and each of the ten
draws gives the candidate `100000`. The code `100000` is live before and after
CreateSession, and the session under it has another sender and another
creation time, and its receiver, which was set, is unset. -/
theorem C11_createSession_rewrites_live_session :
    joinedStore.GetSession "100000"
      = some { Code := "100000", SenderConn := some 1, ReceiverConn := some 2,
               FileMetadata := sampleMetadata, CreatedAt := 0 } ∧
    (joinedStore.CreateSession (constRand 0) 5 (some 3) sampleMetadata).2.GetSession "100000"
      = some { Code := "100000", SenderConn := some 3, ReceiverConn := none,
               FileMetadata := sampleMetadata, CreatedAt := 5 } := by
  decide

/-- C12: `JoinSession(k, c)` fails with "session not found" exactly when no
session is live under `k`, fails with "session already has a receiver" exactly
when a session is live under `k` and its receiver is set, and otherwise
succeeds, returning the session stored under `k` with its receiver now `c`,
which is also what the registry then holds under `k`; whenever it fails the
registry is unchanged. -/
theorem C12_joinSession_outcomes (s : Store) (k : String) (c : Nat) :
    ((s.JoinSession k (some c)).1 = .error "session not found" ↔ s.GetSession k = none) ∧
    ((s.JoinSession k (some c)).1 = .error "session already has a receiver" ↔
      ∃ sess, s.GetSession k = some sess ∧ sess.ReceiverConn ≠ none) ∧
    (∀ sess, s.GetSession k = some sess → sess.ReceiverConn = none →
      (s.JoinSession k (some c)).1 = .ok { sess with ReceiverConn := some c } ∧
      (s.JoinSession k (some c)).2.GetSession k
        = some { sess with ReceiverConn := some c }) ∧
    (∀ err, (s.JoinSession k (some c)).1 = .error err → (s.JoinSession k (some c)).2 = s) := by
  cases hget : s.GetSession k with
  | none =>
    rw [JoinSession_not_found s k (some c) hget]
    refine ⟨⟨fun _ => rfl, fun _ => rfl⟩, ⟨fun h => ?_, fun h => ?_⟩, ?_, fun _ _ => rfl⟩
    · exact absurd (Except.error.inj h) (by decide)
    · obtain ⟨sess, hs, _⟩ := h
      exact Option.noConfusion hs
    · intro sess hs
      exact Option.noConfusion hs
  | some sess =>
    by_cases hr : sess.ReceiverConn = none
    · obtain ⟨h1, h2, _⟩ := JoinSession_ok s k (some c) sess hget hr
      refine ⟨⟨fun h => ?_, fun h => Option.noConfusion h⟩, ⟨fun h => ?_, fun h => ?_⟩, ?_, ?_⟩
      · rw [h1] at h
        exact Except.noConfusion h
      · rw [h1] at h
        exact Except.noConfusion h
      · obtain ⟨sess', hs, hne⟩ := h
        rw [← Option.some.inj hs] at hne
        exact absurd hr hne
      · intro sess' hs _
        rw [← Option.some.inj hs]
        exact ⟨h1, h2⟩
      · intro err h
        rw [h1] at h
        exact Except.noConfusion h
    · rw [JoinSession_has_receiver s k (some c) sess hget hr]
      refine ⟨⟨fun h => ?_, fun h => Option.noConfusion h⟩,
        ⟨fun _ => ⟨sess, rfl, hr⟩, fun _ => rfl⟩, ?_, fun _ _ => rfl⟩
      · exact absurd (Except.error.inj h) (by decide)
      · intro sess' hs hnone
        rw [← Option.some.inj hs] at hnone
        exact absurd hnone hr

theorem C12_joinSession_outcomes_witness :
    openStore.GetSession "100000" = some (openSession "100000") ∧
    (openSession "100000").ReceiverConn = none ∧
    ((openStore.JoinSession "100000" (some 2)).1 = .ok (joinedSession "100000") ∧
      (openStore.JoinSession "100000" (some 2)).2.GetSession "100000"
        = some (joinedSession "100000")) ∧
    ((openStore.JoinSession "999999" (some 2)).1 = .error "session not found" ↔
      openStore.GetSession "999999" = none) :=
  ⟨by decide, by decide,
   (C12_joinSession_outcomes openStore "100000" 2).2.2.1 (openSession "100000")
     (by decide) (by decide),
   (C12_joinSession_outcomes openStore "999999" 2).1⟩

/-- C13: a join envelope `m` routed from connection `c`. With an empty code the
registry is unchanged and the only envelope is one error envelope to `c`. When
JoinSession fails, the registry is unchanged and the only envelope is one
error envelope to `c` with the code of `m` and the text of the registry error.
When JoinSession succeeds with the session `sess`, whose sender is `a`, exactly
two envelopes are sent, in this order: a joined envelope to `c` with the code
of `m` and the encoded file descriptor of `sess` as payload, then a
receiver-joined envelope to `a` with the code of `m` and the empty object as
payload. -/
theorem C13_join (J : Json) (rand : Nat → Except String Nat) (now : Int)
    (s : Store) (c : Nat) (m : SignalMessage) (hkind : m.Type_ = TypeJoin) :
    (m.Code = "" →
      routeMessage J rand now s (some c) m
        = (s, [(c, { Type_ := TypeError, Code := "", Payload := none,
                     Error := "Code is required" })])) ∧
    (m.Code ≠ "" → ∀ err, (s.JoinSession m.Code (some c)).1 = .error err →
      routeMessage J rand now s (some c) m
        = (s, [(c, { Type_ := TypeError, Code := m.Code, Payload := none,
                     Error := err })])) ∧
    (m.Code ≠ "" → ∀ sess a, (s.JoinSession m.Code (some c)).1 = .ok sess →
      sess.SenderConn = some a →
      routeMessage J rand now s (some c) m
        = ((s.JoinSession m.Code (some c)).2,
           [(c, { Type_ := TypeJoined, Code := m.Code,
                  Payload := some (J.marshal sess.FileMetadata), Error := "" }),
            (a, { Type_ := TypeReceiverJoined, Code := m.Code,
                  Payload := some "\x7b\x7d", Error := "" })])) := by
  rw [routeMessage_join J rand now s _ m hkind]
  unfold handleJoin
  refine ⟨?_, ?_, ?_⟩
  · intro h0
    simp [h0, sendError, sendMessage, NewErrorMessage]
  · intro h0 err herr
    have hb : ¬ ((m.Code == "") = true) := by simpa using h0
    simp only [hb]
    rcases JoinSession_cases s m.Code (some c) with ⟨e, h⟩ | ⟨sess, _, _, h⟩
    · rw [h] at herr ⊢
      rw [Except.error.inj herr]
      rfl
    · rw [h] at herr
      exact Except.noConfusion herr
  · intro h0 sess a hok ha
    have hb : ¬ ((m.Code == "") = true) := by simpa using h0
    simp only [hb]
    rcases JoinSession_cases s m.Code (some c) with ⟨e, h⟩ | ⟨sess', _, _, h⟩
    · rw [h] at hok
      exact Except.noConfusion hok
    · rw [h] at hok ⊢
      have hs := Except.ok.inj hok
      subst hs
      have ha' : sess'.SenderConn = some a := ha
      simp [sendMessage, ha']

theorem C13_join_witness :
    (joinMsg "100000").Type_ = TypeJoin ∧ (joinMsg "100000").Code ≠ "" ∧
    (openStore.JoinSession "100000" (some 2)).1 = .ok (joinedSession "100000") ∧
    (joinedSession "100000").SenderConn = some 1 ∧
    routeMessage sampleJson (constRand 0) 0 openStore (some 2) (joinMsg "100000")
      = (joinedStore,
         [(2, { Type_ := "joined", Code := "100000", Payload := some samplePayload,
                Error := "" }),
          (1, { Type_ := "receiver-joined", Code := "100000", Payload := some "\x7b\x7d",
                Error := "" })]) :=
  ⟨rfl, by decide, rfl, rfl,
   (C13_join sampleJson (constRand 0) 0 openStore 2 (joinMsg "100000") rfl).2.2
     (by decide) (joinedSession "100000") 1 rfl rfl⟩

/-- C14: the end-to-end trace from the empty registry with two distinct
connections `S` and `R`, when the first draw of the random source is a number
`n < 900000` and the payload of the create envelope decodes to the descriptor
{name "a.txt", size 10, type "text/plain"}. With `k` the decimal numeral of
`n + 100000`: `S` sends create and receives a created envelope carrying `k`,
which has six digits; `R` sends join with `k`, `R` receives joined with code
`k` and that descriptor, encoded, and then `S` receives receiver-joined; `S`
sends an offer with code `k` and `R` receives the same envelope; `R` sends
close with code `k`, `S` receives a close envelope with code `k`, and
afterwards GetSession on `k` is absent. -/
theorem C14_end_to_end (J : Json) (r₁ r₂ r₃ r₄ : Nat → Except String Nat)
    (t₁ t₂ t₃ t₄ : Int) (S R n : Nat) (mc mj mo ml : SignalMessage)
    (hSR : S ≠ R) (hn : n < 900000) (hrand : r₁ 0 = .ok n)
    (hc : mc.Type_ = TypeCreate) (hdec : J.unmarshal mc.Payload = some sampleMetadata)
    (hj : mj.Type_ = TypeJoin) (hjc : mj.Code = Nat.repr (n + 100000))
    (ho : mo.Type_ = TypeOffer) (hoc : mo.Code = Nat.repr (n + 100000))
    (hl : ml.Type_ = TypeClose) (hlc : ml.Code = Nat.repr (n + 100000)) :
    let k := Nat.repr (n + 100000)
    let step₁ := routeMessage J r₁ t₁ NewStore (some S) mc
    let step₂ := routeMessage J r₂ t₂ step₁.1 (some R) mj
    let step₃ := routeMessage J r₃ t₃ step₂.1 (some S) mo
    let step₄ := routeMessage J r₄ t₄ step₃.1 (some R) ml
    step₁.2 = [(S, { Type_ := TypeCreated, Code := k, Payload := some "\x7b\x7d",
                     Error := "" })] ∧
    k.length = 6 ∧ (∀ ch ∈ k.data, ch.isDigit = true) ∧
    step₂.2 = [(R, { Type_ := TypeJoined, Code := k,
                     Payload := some (J.marshal sampleMetadata), Error := "" }),
               (S, { Type_ := TypeReceiverJoined, Code := k, Payload := some "\x7b\x7d",
                     Error := "" })] ∧
    step₃.2 = [(R, mo)] ∧
    step₄.2 = [(S, { Type_ := TypeClose, Code := k, Payload := none, Error := "" })] ∧
    step₄.1.GetSession k = none := by
  obtain ⟨hlen, hdig⟩ := repr_six_digits (n + 100000) (by omega) (by omega)
  have hk : Nat.repr (n + 100000) ≠ "" := by
    intro h
    rw [h] at hlen
    exact absurd hlen (by decide)
  have h₁ := create_on_empty J r₁ t₁ S n sampleMetadata mc hc hdec hrand
  rw [sprintf06d_eq_repr (n + 100000) (by omega) (by omega)] at h₁
  obtain ⟨h₂, h₃, h₄⟩ := trace_after_create J r₂ r₃ r₄ t₁ t₂ t₃ t₄ S R hSR
    (Nat.repr (n + 100000)) hk sampleMetadata mj mo ml hj hjc ho hoc hl hlc
  simp only [h₁, h₂, h₃, h₄]
  exact ⟨trivial, hlen, hdig, trivial, trivial, trivial, rfl⟩

theorem C14_end_to_end_witness :
    (1 : Nat) ≠ 2 ∧ (23456 : Nat) < 900000 ∧ constRand 23456 0 = .ok 23456 ∧
    sampleJson.unmarshal createMsg.Payload = some sampleMetadata ∧
    (joinMsg "123456").Code = Nat.repr (23456 + 100000) ∧
    (let k := Nat.repr (23456 + 100000)
     let step₁ := routeMessage sampleJson (constRand 23456) 0 NewStore (some 1) createMsg
     let step₂ := routeMessage sampleJson (constRand 23456) 0 step₁.1 (some 2) (joinMsg "123456")
     let step₃ := routeMessage sampleJson (constRand 23456) 0 step₂.1 (some 1) (offerMsg "123456")
     let step₄ := routeMessage sampleJson (constRand 23456) 0 step₃.1 (some 2) (closeMsg "123456")
     step₁.2 = [(1, { Type_ := TypeCreated, Code := k, Payload := some "\x7b\x7d",
                      Error := "" })] ∧
     k.length = 6 ∧ (∀ ch ∈ k.data, ch.isDigit = true) ∧
     step₂.2 = [(2, { Type_ := TypeJoined, Code := k,
                      Payload := some (sampleJson.marshal sampleMetadata), Error := "" }),
                (1, { Type_ := TypeReceiverJoined, Code := k, Payload := some "\x7b\x7d",
                      Error := "" })] ∧
     step₃.2 = [(2, offerMsg "123456")] ∧
     step₄.2 = [(1, { Type_ := TypeClose, Code := k, Payload := none, Error := "" })] ∧
     step₄.1.GetSession k = none) :=
  ⟨by decide, by decide, rfl, by decide, by decide,
   C14_end_to_end sampleJson (constRand 23456) (constRand 23456) (constRand 23456)
     (constRand 23456) 0 0 0 0 1 2 23456 createMsg (joinMsg "123456") (offerMsg "123456")
     (closeMsg "123456") (by decide) (by decide) rfl rfl (by decide) rfl (by decide) rfl
     (by decide) rfl (by decide)⟩

/-- C15: for every value `n` that the random source can return
(`n < 900000`), generateCode yields the decimal numeral of `n + 100000`: a
string of exactly six ASCII digits whose first digit is not `0` and which
denotes `n + 100000`, a number from `100000` to `999999`; and distinct values
of `n` yield distinct codes. -/
theorem C15_generateCode_format (n : Nat) (hn : n < 900000) :
    generateCode (.ok n) = .ok (Nat.repr (n + 100000)) ∧
    (Nat.repr (n + 100000)).length = 6 ∧
    (∀ ch ∈ (Nat.repr (n + 100000)).data, ch.isDigit = true) ∧
    (Nat.repr (n + 100000)).data.head? ≠ some '0' ∧
    decimalValue (Nat.repr (n + 100000)) = n + 100000 ∧
    100000 ≤ decimalValue (Nat.repr (n + 100000)) ∧
    decimalValue (Nat.repr (n + 100000)) ≤ 999999 ∧
    (∀ n', n' < 900000 → n' ≠ n → generateCode (.ok n') ≠ generateCode (.ok n)) := by
  have hrepr := sprintf06d_eq_repr (n + 100000) (by omega) (by omega)
  have hval := decimalValue_sprintf06d (n + 100000) (by omega) (by omega)
  have hsix := sprintf06d_six (n + 100000) (by omega) (by omega)
  rw [← hrepr]
  refine ⟨rfl, ?_, ?_, ?_, hval, ?_, ?_, ?_⟩
  · rw [hsix]
    rfl
  · rw [hsix]
    intro ch hch
    simp only [List.mem_cons, List.mem_singleton, List.not_mem_nil, or_false] at hch
    rcases hch with h | h | h | h | h | h <;> rw [h] <;> apply digitChar_isDigit <;> omega
  · rw [hsix]
    intro h
    have h0 : digitChar ((n + 100000) / 100000) = digitChar 0 := Option.some.inj h
    have := digitChar_inj _ _ (by omega) (by omega) h0
    omega
  · rw [hval]
    omega
  · rw [hval]
    omega
  · intro n' hn' hne h
    have hcode : sprintf06d (n' + 100000) = sprintf06d (n + 100000) := Except.ok.inj h
    have hval' := decimalValue_sprintf06d (n' + 100000) (by omega) (by omega)
    rw [hcode, hval] at hval'
    omega

theorem C15_generateCode_format_witness :
    (23456 : Nat) < 900000 ∧ generateCode (.ok 23456) = .ok "123456" ∧
    ("123456" : String).length = 6 ∧ decimalValue "123456" = 123456 :=
  ⟨by decide, (C15_generateCode_format 23456 (by decide)).1,
   (C15_generateCode_format 23456 (by decide)).2.1,
   (C15_generateCode_format 23456 (by decide)).2.2.2.2.1⟩

/-- C16, as stated, fails: the error text the router sends for a kind it does
not know is "Unknown message type", with a capital letter, and not
"unknown message type". -/
theorem C16_counterexample :
    pingMsg.Type_ ≠ TypeCreate ∧ pingMsg.Type_ ≠ TypeJoin ∧ pingMsg.Type_ ≠ TypeAccept ∧
    pingMsg.Type_ ≠ TypeOffer ∧ pingMsg.Type_ ≠ TypeAnswer ∧
    pingMsg.Type_ ≠ TypeIceCandidate ∧ pingMsg.Type_ ≠ TypeClose ∧
    routeMessage sampleJson (constRand 0) 0 joinedStore (some 3) pingMsg
      = (joinedStore, [(3, { Type_ := "error", Code := "100000", Payload := none,
                             Error := "Unknown message type" })]) ∧
    routeMessage sampleJson (constRand 0) 0 joinedStore (some 3) pingMsg
      ≠ (joinedStore, [(3, { Type_ := "error", Code := "100000", Payload := none,
                             Error := "unknown message type" })]) := by
  decide

/-- C16, amended: for every envelope `m` whose kind is none of create, join,
accept, offer, answer, ice-candidate, close, routing it from connection `c`
leaves the registry unchanged and sends exactly one envelope, to `c`: an error
envelope with error text "Unknown message type", with the code of `m` and with
no payload. -/
theorem C16_unknown_kind (J : Json) (rand : Nat → Except String Nat) (now : Int)
    (s : Store) (c : Nat) (m : SignalMessage)
    (h1 : m.Type_ ≠ TypeCreate) (h2 : m.Type_ ≠ TypeJoin) (h3 : m.Type_ ≠ TypeAccept)
    (h4 : m.Type_ ≠ TypeOffer) (h5 : m.Type_ ≠ TypeAnswer) (h6 : m.Type_ ≠ TypeIceCandidate)
    (h7 : m.Type_ ≠ TypeClose) :
    routeMessage J rand now s (some c) m
      = (s, [(c, { Type_ := TypeError, Code := m.Code, Payload := none,
                   Error := "Unknown message type" })]) := by
  rw [routeMessage_default J rand now s _ m h1 h2 h3 h4 h5 h6 h7]
  rfl

theorem C16_unknown_kind_witness :
    ("" : String) ≠ TypeCreate ∧ ("" : String) ≠ TypeJoin ∧ ("" : String) ≠ TypeAccept ∧
    ("" : String) ≠ TypeOffer ∧ ("" : String) ≠ TypeAnswer ∧
    ("" : String) ≠ TypeIceCandidate ∧ ("" : String) ≠ TypeClose ∧
    routeMessage sampleJson (constRand 0) 0 joinedStore (some 3)
        { Type_ := "", Code := "654321", Payload := some "x", Error := "e" }
      = (joinedStore, [(3, { Type_ := TypeError, Code := "654321", Payload := none,
                             Error := "Unknown message type" })]) :=
  ⟨by decide, by decide, by decide, by decide, by decide, by decide, by decide,
   C16_unknown_kind sampleJson (constRand 0) 0 joinedStore 3
     { Type_ := "", Code := "654321", Payload := some "x", Error := "e" }
     (by decide) (by decide) (by decide) (by decide) (by decide) (by decide) (by decide)⟩

/-- C17: on a registry that is a map, `GetSessionByConnection(c)` returns a
session exactly when some live session has `c` as its sender or as its
receiver, and the session it returns is a live session with `c` in one of
those two slots. The call reads the registry and returns no new one. -/
theorem C17_getSessionByConnection (s : Store) (hmap : s.IsMap) (c : Nat) :
    ((s.GetSessionByConnection (some c)).isSome = true ↔
      ∃ k sess, s.GetSession k = some sess ∧ sess.hasConn c) ∧
    (∀ sess, s.GetSessionByConnection (some c) = some sess →
      sess.hasConn c ∧ ∃ k, s.GetSession k = some sess) := by
  have hp : ∀ e : String × Session,
      (e.2.SenderConn == some c || e.2.ReceiverConn == some c) = true ↔ e.2.hasConn c := by
    intro e
    simp [Session.hasConn]
  have hret : ∀ sess, s.GetSessionByConnection (some c) = some sess →
      sess.hasConn c ∧ ∃ k, s.GetSession k = some sess := by
    intro sess h
    unfold Store.GetSessionByConnection at h
    cases hf : s.sessions.find?
        (fun e => e.2.SenderConn == some c || e.2.ReceiverConn == some c) with
    | none =>
      rw [hf] at h
      exact Option.noConfusion h
    | some e =>
      rw [hf, Option.map_some'] at h
      have hes : e.2 = sess := Option.some.inj h
      have hmem := List.mem_of_find?_eq_some hf
      have hpe : e.2.hasConn c := (hp e).mp (by simpa using List.find?_some hf)
      rw [← hes]
      exact ⟨hpe, e.1, mapGet_of_mem s.sessions hmap e.1 e.2 hmem⟩
  refine ⟨⟨fun h => ?_, fun h => ?_⟩, hret⟩
  · obtain ⟨sess, hs⟩ := Option.isSome_iff_exists.mp h
    obtain ⟨hc, k, hk⟩ := hret sess hs
    exact ⟨k, sess, hk, hc⟩
  · obtain ⟨k, sess, hk, hc⟩ := h
    unfold Store.GetSessionByConnection
    cases hf : s.sessions.find?
        (fun e => e.2.SenderConn == some c || e.2.ReceiverConn == some c) with
    | none =>
      exfalso
      rw [List.find?_eq_none] at hf
      exact hf (k, sess) (mem_of_mapGet s.sessions k sess hk) ((hp (k, sess)).mpr hc)
    | some e => rfl

theorem C17_getSessionByConnection_witness :
    afterJoinAndCreate.IsMap ∧
    afterJoinAndCreate.GetSessionByConnection (some 2) = some (joinedSession "100000") ∧
    ((joinedSession "100000").hasConn 2 ∧
      ∃ k, afterJoinAndCreate.GetSession k = some (joinedSession "100000")) :=
  ⟨by decide, by decide,
   (C17_getSessionByConnection afterJoinAndCreate (by decide) 2).2
     (joinedSession "100000") (by decide)⟩

/-- C18: CreateSession looks at the draws in order and at no more than ten of
them, and tests each candidate against the map as it is. At the first draw
that is an error of the random source, after draws that all collide, it
returns an error and leaves the registry unchanged. At the first candidate that
is not in the map it stops and stores the new session under that candidate.
When all ten candidates collide it returns no error: it stores the new session
under the tenth candidate, in place of the session that was there. The result
does not depend on any draw after the tenth. -/
theorem C18_createSession_draws (s : Store) (rand : Nat → Except String Nat) (now : Int)
    (conn : Option Nat) (d : FileMetadata) :
    (∀ j, j < 10 → (∀ i, i < j → collides s (rand i)) → ∀ err, rand j = .error err →
      s.CreateSession rand now conn d = (.error ("failed to generate code: " ++ err), s)) ∧
    (∀ j, j < 10 → (∀ i, i < j → collides s (rand i)) → ∀ n, rand j = .ok n →
      s.GetSession (sprintf06d (n + 100000)) = none →
      s.CreateSession rand now conn d
        = (.ok { Code := sprintf06d (n + 100000), SenderConn := conn, ReceiverConn := none,
                 FileMetadata := d, CreatedAt := now },
           { sessions := mapSet s.sessions (sprintf06d (n + 100000))
               { Code := sprintf06d (n + 100000), SenderConn := conn, ReceiverConn := none,
                 FileMetadata := d, CreatedAt := now } })) ∧
    ((∀ i, i < 10 → collides s (rand i)) → ∀ n, rand 9 = .ok n →
      s.CreateSession rand now conn d
        = (.ok { Code := sprintf06d (n + 100000), SenderConn := conn, ReceiverConn := none,
                 FileMetadata := d, CreatedAt := now },
           { sessions := mapSet s.sessions (sprintf06d (n + 100000))
               { Code := sprintf06d (n + 100000), SenderConn := conn, ReceiverConn := none,
                 FileMetadata := d, CreatedAt := now } }) ∧
      (s.GetSession (sprintf06d (n + 100000))).isSome = true ∧
      (s.CreateSession rand now conn d).2.GetSession (sprintf06d (n + 100000))
        = some { Code := sprintf06d (n + 100000), SenderConn := conn, ReceiverConn := none,
                 FileMetadata := d, CreatedAt := now }) ∧
    (∀ rand' : Nat → Except String Nat, (∀ i, i < 10 → rand' i = rand i) →
      s.CreateSession rand' now conn d = s.CreateSession rand now conn d) := by
  refine ⟨?_, ?_, ?_, ?_⟩
  · intro j hj hpre err herr
    have hpre' : ∀ t, t < j → collides s (rand (0 + t)) := by
      intro t ht
      rw [Nat.zero_add]
      exact hpre t ht
    have h := (codeLoop_first s rand 10 0 "" j hj hpre').1 err (by rw [Nat.zero_add]; exact herr)
    unfold Store.CreateSession
    rw [h]
  · intro j hj hpre n hn hfree
    have hpre' : ∀ t, t < j → collides s (rand (0 + t)) := by
      intro t ht
      rw [Nat.zero_add]
      exact hpre t ht
    have h := (codeLoop_first s rand 10 0 "" j hj hpre').2 n
      (by rw [Nat.zero_add]; exact hn) hfree
    unfold Store.CreateSession
    rw [h]
  · intro hall n hn
    have hall' : ∀ t, t < 9 + 1 → collides s (rand (0 + t)) := by
      intro t ht
      rw [Nat.zero_add]
      exact hall t ht
    have h := codeLoop_exhausted s rand 9 0 "" hall' n (by rw [Nat.zero_add]; exact hn)
    have hcreate : s.CreateSession rand now conn d
        = (.ok { Code := sprintf06d (n + 100000), SenderConn := conn, ReceiverConn := none,
                 FileMetadata := d, CreatedAt := now },
           { sessions := mapSet s.sessions (sprintf06d (n + 100000))
               { Code := sprintf06d (n + 100000), SenderConn := conn, ReceiverConn := none,
                 FileMetadata := d, CreatedAt := now } }) := by
      unfold Store.CreateSession
      rw [h]
    refine ⟨hcreate, ?_, ?_⟩
    · obtain ⟨n₉, hr₉, hlive₉⟩ := hall 9 (by omega)
      rw [hn] at hr₉
      rw [Except.ok.inj hr₉]
      exact hlive₉
    · rw [hcreate]
      exact mapGet_mapSet_self s.sessions _ _
  · intro rand' hsame
    have h := codeLoop_congr s rand rand' 10 0 ""
      (fun t ht => by rw [Nat.zero_add]; exact hsame t ht)
    unfold Store.CreateSession
    rw [h]

theorem C18_createSession_draws_witness :
    (∀ i, i < 10 → collides joinedStore (constRand 0 i)) ∧ constRand 0 9 = .ok 0 ∧
    (joinedStore.CreateSession (constRand 0) 5 (some 3) sampleMetadata
        = (.ok { Code := "100000", SenderConn := some 3, ReceiverConn := none,
                 FileMetadata := sampleMetadata, CreatedAt := 5 },
           { sessions := mapSet joinedStore.sessions "100000"
               { Code := "100000", SenderConn := some 3, ReceiverConn := none,
                 FileMetadata := sampleMetadata, CreatedAt := 5 } }) ∧
      (joinedStore.GetSession "100000").isSome = true ∧
      (joinedStore.CreateSession (constRand 0) 5 (some 3) sampleMetadata).2.GetSession "100000"
        = some { Code := "100000", SenderConn := some 3, ReceiverConn := none,
                 FileMetadata := sampleMetadata, CreatedAt := 5 }) :=
  ⟨fun _ _ => ⟨0, rfl, by decide⟩, rfl,
   (C18_createSession_draws joinedStore (constRand 0) 5 (some 3) sampleMetadata).2.2.1
     (fun _ _ => ⟨0, rfl, by decide⟩) 0 rfl⟩

/-- C19: in every registry state reached from the empty registry by
CreateSession, JoinSession, RemoveSession and CleanupOldSessions, the session
found under a code `k` carries the code `k`; so RemoveSession on the code read
from that session removes the entry under `k`. -/
theorem C19_stored_under_own_code (s : Store) (h : RegReach s) (k : String) (sess : Session)
    (hlive : s.GetSession k = some sess) :
    sess.Code = k ∧ (s.RemoveSession sess.Code).GetSession k = none := by
  have hcode : sess.Code = k :=
    (RegReach_wellFormed s h).2 (k, sess) (mem_of_mapGet s.sessions k sess hlive)
  refine ⟨hcode, ?_⟩
  rw [hcode]
  exact GetSession_RemoveSession_self s k

theorem C19_stored_under_own_code_witness :
    RegReach regJoined ∧ regJoined.GetSession "100000" = some (joinedSession "100000") ∧
    ((joinedSession "100000").Code = "100000" ∧
      (regJoined.RemoveSession (joinedSession "100000").Code).GetSession "100000" = none) :=
  ⟨RegReach.join _ "100000" (some 2)
      (RegReach.create NewStore (constRand 0) 0 (some 1) sampleMetadata RegReach.empty),
   by decide,
   C19_stored_under_own_code regJoined
     (RegReach.join _ "100000" (some 2)
       (RegReach.create NewStore (constRand 0) 0 (some 1) sampleMetadata RegReach.empty))
     "100000" (joinedSession "100000") (by decide)⟩

/-- C20: for every registry, connection `c` and envelope `m` routed from `c`,
each envelope the router sends is addressed to `c` itself or to the sender or
the receiver of the session stored under the code of `m` when `m` is handled;
for a create envelope it is addressed to `c`. So a connection other than `c`
that is in no session under the code of `m` is sent nothing. -/
theorem C20_addressees (J : Json) (rand : Nat → Except String Nat) (now : Int)
    (s : Store) (c : Nat) (m : SignalMessage) (t : Nat) (e : SignalMessage)
    (hmem : (t, e) ∈ (routeMessage J rand now s (some c) m).2) :
    (t = c ∨ ∃ sess, s.GetSession m.Code = some sess ∧ sess.hasConn t) ∧
    (m.Type_ = TypeCreate → t = c) ∧
    (t ≠ c → ∃ sess, s.GetSession m.Code = some sess ∧ sess.hasConn t) := by
  suffices hmain : (t = c ∨ ∃ sess, s.GetSession m.Code = some sess ∧ sess.hasConn t) ∧
      (m.Type_ = TypeCreate → t = c) from
    ⟨hmain.1, hmain.2, fun hne => hmain.1.resolve_left hne⟩
  by_cases h1 : m.Type_ = TypeCreate
  · rw [routeMessage_create J rand now s _ m h1] at hmem
    have ht := handleCreate_addressee J rand now s c m t e hmem
    exact ⟨Or.inl ht, fun _ => ht⟩
  · refine ⟨?_, fun h => absurd h h1⟩
    by_cases h2 : m.Type_ = TypeJoin
    · rw [routeMessage_join J rand now s _ m h2] at hmem
      exact handleJoin_addressee J s c m t e hmem
    · by_cases h3 : m.Type_ = TypeAccept
      · rw [routeMessage_accept J rand now s _ m h3] at hmem
        exact handleAccept_addressee s c m t e hmem
      · by_cases h4 : m.Type_ = TypeOffer ∨ m.Type_ = TypeAnswer ∨ m.Type_ = TypeIceCandidate
        · rw [routeMessage_relay J rand now s _ m h4] at hmem
          exact handleRelay_addressee s c m t e hmem
        · by_cases h5 : m.Type_ = TypeClose
          · rw [routeMessage_close J rand now s _ m h5] at hmem
            exact Or.inr (handleClose_addressee s c m t e hmem)
          · rw [routeMessage_default J rand now s _ m h1 h2 h3
              (fun h => h4 (Or.inl h)) (fun h => h4 (Or.inr (Or.inl h)))
              (fun h => h4 (Or.inr (Or.inr h))) h5] at hmem
            exact Or.inl (Option.some.inj (mem_sendError hmem)).symm

theorem C20_addressees_witness :
    ((1, { Type_ := "receiver-joined", Code := "100000", Payload := some "\x7b\x7d",
           Error := "" }) : Nat × SignalMessage)
      ∈ (routeMessage sampleJson (constRand 0) 0 openStore (some 2) (joinMsg "100000")).2 ∧
    (((1 : Nat) = 2 ∨
        ∃ sess, openStore.GetSession (joinMsg "100000").Code = some sess ∧ sess.hasConn 1) ∧
      ((joinMsg "100000").Type_ = TypeCreate → (1 : Nat) = 2) ∧
      ((1 : Nat) ≠ 2 →
        ∃ sess, openStore.GetSession (joinMsg "100000").Code = some sess ∧ sess.hasConn 1)) :=
  ⟨by decide,
   C20_addressees sampleJson (constRand 0) 0 openStore 2 (joinMsg "100000") 1
     { Type_ := "receiver-joined", Code := "100000", Payload := some "\x7b\x7d", Error := "" }
     (by decide)⟩

end P2P
